import Mathlib

/-!
Shallow embedding of the BCBS-239 readiness assessment scoring engine
(src/readiness_app.py, together with the extended catalogue of src/app.py).

Python floats are modelled exactly: every float value produced by the source
is a binary64 value, hence a rational number, and each float operation is the
exact rational operation followed by rounding to the nearest binary64
(round-half-to-even on the 53-bit significand).  The magnitudes arising in
this program stay far away from overflow and from the subnormal range, so the
model needs no exponent clamping.  The Python builtin round is
round-half-to-even on the exact value of its argument.
-/

/-- The Python builtin round on an exact rational value: nearest integer,
ties go to the even neighbour. -/
def pyRound (q : ℚ) : ℤ :=
  if q - ⌊q⌋ < 1/2 then ⌊q⌋
  else if 1/2 < q - ⌊q⌋ then ⌊q⌋ + 1
  else if ⌊q⌋ % 2 = 0 then ⌊q⌋ else ⌊q⌋ + 1

/-- Round a positive rational to the nearest binary64 value: scale into
the interval from 2 to the 52 up to 2 to the 53, round the significand
half-to-even, scale back. -/
def rndPos (q : ℚ) : ℚ :=
  (pyRound (q * 2 ^ ((52:ℤ) - Int.log 2 q)) : ℚ) * 2 ^ (Int.log 2 q - (52:ℤ))

/-- Round a rational to the nearest binary64 value (no overflow or
subnormals, which never arise in this program). -/
def rnd (q : ℚ) : ℚ :=
  if q = 0 then 0
  else if 0 < q then rndPos q
  else - rndPos (-q)

/-- Binary64 addition, correctly rounded, as performed by Python. -/
def flAdd (a b : ℚ) : ℚ := rnd (a + b)

/-- Binary64 multiplication, correctly rounded, as performed by Python. -/
def flMul (a b : ℚ) : ℚ := rnd (a * b)

/-- Binary64 division, correctly rounded, as performed by Python. -/
def flDiv (a b : ℚ) : ℚ := rnd (a / b)

/-! Lemmas about pyRound. -/

theorem pyRound_eq_of {q : ℚ} {n : ℤ} (h1 : (n:ℚ) - 1/2 < q) (h2 : q < n + 1/2) :
    pyRound q = n := by
  unfold pyRound
  rcases le_or_lt (n:ℚ) q with hn | hn
  · have hf : ⌊q⌋ = n := by
      rw [Int.floor_eq_iff]
      refine ⟨by exact_mod_cast hn, by push_cast; linarith⟩
    rw [hf, if_pos (by linarith : q - (n:ℚ) < 1/2)]
  · have hf : ⌊q⌋ = n - 1 := by
      rw [Int.floor_eq_iff]
      constructor
      · push_cast
        linarith
      · push_cast
        linarith
    rw [hf]
    rw [if_neg (by push_cast; linarith : ¬ (q - ((n:ℤ) - 1 : ℤ) < 1/2))]
    rw [if_pos (by push_cast; linarith : (1:ℚ)/2 < q - ((n:ℤ) - 1 : ℤ))]
    ring

theorem pyRound_intCast (n : ℤ) : pyRound (n:ℚ) = n :=
  pyRound_eq_of (by linarith) (by linarith)

theorem pyRound_half_even {n : ℤ} (h : n % 2 = 0) : pyRound ((n:ℚ) + 1/2) = n := by
  unfold pyRound
  have hf : ⌊(n:ℚ) + 1/2⌋ = n := by
    rw [Int.floor_eq_iff]
    refine ⟨by push_cast; linarith, by push_cast; linarith⟩
  rw [hf]
  rw [if_neg (by push_cast; linarith : ¬ ((n:ℚ) + 1/2 - (n:ℤ) < 1/2))]
  rw [if_neg (by push_cast; linarith : ¬ ((1:ℚ)/2 < (n:ℚ) + 1/2 - (n:ℤ)))]
  rw [if_pos h]

theorem pyRound_half_odd {n : ℤ} (h : n % 2 ≠ 0) : pyRound ((n:ℚ) + 1/2) = n + 1 := by
  unfold pyRound
  have hf : ⌊(n:ℚ) + 1/2⌋ = n := by
    rw [Int.floor_eq_iff]
    refine ⟨by push_cast; linarith, by push_cast; linarith⟩
  rw [hf]
  rw [if_neg (by push_cast; linarith : ¬ ((n:ℚ) + 1/2 - (n:ℤ) < 1/2))]
  rw [if_neg (by push_cast; linarith : ¬ ((1:ℚ)/2 < (n:ℚ) + 1/2 - (n:ℤ)))]
  rw [if_neg h]

theorem le_pyRound (q : ℚ) : q - 1/2 ≤ (pyRound q : ℚ) := by
  unfold pyRound
  have hle : (⌊q⌋ : ℚ) ≤ q := Int.floor_le q
  have hlt : q < ⌊q⌋ + 1 := Int.lt_floor_add_one q
  split_ifs with h1 h2 h3 <;> push_cast <;> linarith

theorem pyRound_le (q : ℚ) : (pyRound q : ℚ) ≤ q + 1/2 := by
  unfold pyRound
  have hle : (⌊q⌋ : ℚ) ≤ q := Int.floor_le q
  have hlt : q < ⌊q⌋ + 1 := Int.lt_floor_add_one q
  split_ifs with h1 h2 h3 <;> push_cast <;> linarith

theorem pyRound_mono {x y : ℚ} (h : x ≤ y) : pyRound x ≤ pyRound y := by
  by_contra hc
  push_neg at hc
  have h1 : (pyRound y : ℚ) + 1 ≤ pyRound x := by exact_mod_cast hc
  have h2 : y - 1/2 ≤ (pyRound y : ℚ) := le_pyRound y
  have h3 : (pyRound x : ℚ) ≤ x + 1/2 := pyRound_le x
  have hxy : x = y := le_antisymm h (by linarith)
  rw [hxy] at hc
  exact lt_irrefl _ hc

theorem pyRound_nonneg {q : ℚ} (h : 0 ≤ q) : 0 ≤ pyRound q := by
  have h1 := le_pyRound q
  have h2 : ((-1 : ℤ) : ℚ) < (pyRound q : ℚ) := by push_cast; linarith
  have h3 : (-1 : ℤ) < pyRound q := by exact_mod_cast h2
  omega

/-! Lemmas about rnd. -/

theorem zpow_merge (a b : ℤ) : (2:ℚ) ^ a * 2 ^ b = 2 ^ (a + b) :=
  (zpow_add₀ (by norm_num) a b).symm

theorem log2_eq {q : ℚ} {e : ℤ} (h1 : (2:ℚ) ^ e ≤ q) (h2 : q < 2 ^ (e + 1)) :
    Int.log 2 q = e := by
  have hcast : ((2:ℕ):ℚ) = (2:ℚ) := by norm_num
  have h0 : (0:ℚ) < q := lt_of_lt_of_le (zpow_pos (by norm_num) e) h1
  have hb : (1:ℕ) < 2 := by norm_num
  have hle : e ≤ Int.log 2 q := by
    have h1n : ((2:ℕ):ℚ) ^ e ≤ q := by rw [hcast]; exact h1
    have := Int.log_mono_right (b := 2) (zpow_pos (by rw [hcast]; norm_num) e) h1n
    rwa [Int.log_zpow hb e] at this
  have hlt : Int.log 2 q < e + 1 := by
    by_contra hc
    push_neg at hc
    have hz : (2:ℚ) ^ (e+1) ≤ 2 ^ (Int.log 2 q) :=
      zpow_le_zpow_right₀ (by norm_num) hc
    have hq : ((2:ℕ):ℚ) ^ (Int.log 2 q) ≤ q := Int.zpow_log_le_self hb h0
    rw [hcast] at hq
    linarith
  omega

theorem rnd_eq_of_log {q : ℚ} (e m : ℤ) (h0 : 0 < q) (he : Int.log 2 q = e)
    (hm : pyRound (q * 2 ^ ((52:ℤ) - e)) = m) :
    rnd q = (m:ℚ) * 2 ^ (e - (52:ℤ)) := by
  unfold rnd rndPos
  rw [if_neg (ne_of_gt h0), if_pos h0, he, hm]

theorem rnd_zero : rnd 0 = 0 := by
  unfold rnd
  norm_num

/-- Evaluation helper, case of magnitude at least one: the exponent bracket
fixes the scale and the rounded significand fixes the value. -/
theorem rnd_eval_nat {q : ℚ} (e : ℕ) (m : ℤ) (he : e ≤ 52)
    (h1 : (2:ℚ) ^ e ≤ q) (h2 : q < 2 ^ (e + 1))
    (hm : pyRound (q * 2 ^ (52 - e)) = m) :
    rnd q = (m:ℚ) / 2 ^ (52 - e) := by
  have h0 : (0:ℚ) < q := lt_of_lt_of_le (by positivity) h1
  have h1z : (2:ℚ) ^ (e:ℤ) ≤ q := by rw [zpow_natCast]; exact h1
  have h2z : q < 2 ^ ((e:ℤ) + 1) := by
    rw [show ((e:ℤ) + 1) = ((e+1 : ℕ) : ℤ) by push_cast; ring, zpow_natCast]
    exact h2
  have hlog : Int.log 2 q = e := log2_eq h1z h2z
  have hsc : (2:ℚ) ^ ((52:ℤ) - (e:ℤ)) = 2 ^ (52 - e) := by
    rw [show (52:ℤ) - (e:ℤ) = ((52 - e : ℕ) : ℤ) by omega, zpow_natCast]
  have hres := rnd_eq_of_log (e:ℤ) m h0 hlog (by rw [hsc]; exact hm)
  rw [hres, show (e:ℤ) - 52 = -((52 - e : ℕ) : ℤ) by omega, zpow_neg, zpow_natCast,
    div_eq_mul_inv]

/-- Evaluation helper, case of magnitude below one (used for the section
weights): the bracket is given multiplied through by 2 to the e. -/
theorem rnd_eval_inv {q : ℚ} (e : ℕ) (m : ℤ)
    (h1 : 1 ≤ q * 2 ^ e) (h2 : q * 2 ^ e < 2)
    (hm : pyRound (q * 2 ^ (52 + e)) = m) :
    rnd q = (m:ℚ) / 2 ^ (52 + e) := by
  have hp : (0:ℚ) < 2 ^ e := by positivity
  have h0 : (0:ℚ) < q := by nlinarith
  have h1z : (2:ℚ) ^ (-(e:ℤ)) ≤ q := by
    rw [zpow_neg, zpow_natCast]
    rw [inv_le_iff_one_le_mul₀ hp]
    linarith
  have h2z : q < 2 ^ (-(e:ℤ) + 1) := by
    have hq : (2:ℚ) ^ (-(e:ℤ) + 1) = 2 / 2 ^ e := by
      rw [zpow_add₀ (by norm_num : (2:ℚ) ≠ 0), zpow_neg, zpow_natCast, zpow_one]
      ring
    rw [hq, lt_div_iff₀ hp]
    linarith
  have hlog : Int.log 2 q = -(e:ℤ) := log2_eq h1z h2z
  have hsc : (2:ℚ) ^ ((52:ℤ) - (-(e:ℤ))) = 2 ^ (52 + e) := by
    rw [show (52:ℤ) - (-(e:ℤ)) = ((52 + e : ℕ) : ℤ) by omega, zpow_natCast]
  have hres := rnd_eq_of_log (-(e:ℤ)) m h0 hlog (by rw [hsc]; exact hm)
  rw [hres, show (-(e:ℤ)) - 52 = -((52 + e : ℕ) : ℤ) by omega, zpow_neg, zpow_natCast,
    div_eq_mul_inv]

theorem rnd_nonneg {q : ℚ} (h : 0 ≤ q) : 0 ≤ rnd q := by
  rcases eq_or_lt_of_le h with h0 | h0
  · rw [← h0, rnd_zero]
  · unfold rnd rndPos
    rw [if_neg (ne_of_gt h0), if_pos h0]
    have hsc : (0:ℚ) ≤ q * 2 ^ ((52:ℤ) - Int.log 2 q) := by positivity
    have hnn := pyRound_nonneg hsc
    have hz : (0:ℚ) ≤ (pyRound (q * 2 ^ ((52:ℤ) - Int.log 2 q)) : ℚ) := by exact_mod_cast hnn
    positivity

/-- Relative error of binary64 rounding: a positive value moves by at most
its own magnitude divided by 2 to the 53. -/
theorem rnd_err {q : ℚ} (h : 0 < q) : |rnd q - q| * 2 ^ 53 ≤ q := by
  unfold rnd rndPos
  rw [if_neg (ne_of_gt h), if_pos h]
  set e := Int.log 2 q with hedef
  set s : ℚ := 2 ^ ((52:ℤ) - e) with hs
  have hspos : (0:ℚ) < s := zpow_pos (by norm_num) _
  have hround : |(pyRound (q * s) : ℚ) - q * s| ≤ 1/2 := by
    rw [abs_le]
    exact ⟨by linarith [le_pyRound (q*s)], by linarith [pyRound_le (q*s)]⟩
  have hq : (2:ℚ) ^ e ≤ q := by
    have hlow := Int.zpow_log_le_self (b := 2) (by norm_num) h
    rwa [show ((2:ℕ):ℚ) = (2:ℚ) by norm_num] at hlow
  have hinv : (2:ℚ) ^ (e - (52:ℤ)) = s⁻¹ := by
    rw [hs, ← zpow_neg]
    congr 1
    ring
  rw [hinv]
  have key : (pyRound (q * s) : ℚ) * s⁻¹ - q = ((pyRound (q * s) : ℚ) - q * s) * s⁻¹ := by
    field_simp
    ring
  rw [key, abs_mul, abs_of_pos (inv_pos.mpr hspos)]
  have h1 : |(pyRound (q * s) : ℚ) - q * s| * s⁻¹ * 2 ^ 53 ≤ (1/2) * s⁻¹ * 2 ^ 53 := by
    have hr : (0:ℚ) ≤ s⁻¹ * 2 ^ 53 := by positivity
    calc |(pyRound (q * s) : ℚ) - q * s| * s⁻¹ * 2 ^ 53
        = |(pyRound (q * s) : ℚ) - q * s| * (s⁻¹ * 2 ^ 53) := by ring
      _ ≤ (1/2) * (s⁻¹ * 2 ^ 53) := mul_le_mul_of_nonneg_right hround hr
      _ = (1/2) * s⁻¹ * 2 ^ 53 := by ring
  refine le_trans h1 ?_
  have h2 : (1/2 : ℚ) * s⁻¹ * 2 ^ 53 = 2 ^ e := by
    rw [hs, ← zpow_neg]
    rw [show (1/2 : ℚ) = 2 ^ (-1 : ℤ) by norm_num]
    rw [show ((2:ℚ) ^ (53:ℕ)) = 2 ^ (53:ℤ) by rw [← zpow_natCast]; norm_num]
    rw [zpow_merge, zpow_merge]
    congr 1
    ring
  rw [h2]
  exact hq

/-- Convenient absolute error bound on the range used by this program. -/
theorem rnd_close {x : ℚ} (h0 : 0 ≤ x) (h1 : x ≤ 256) : |rnd x - x| ≤ 1 / 2 ^ 45 := by
  rcases eq_or_lt_of_le h0 with hz | hp
  · rw [← hz, rnd_zero]
    norm_num
  · have herr := rnd_err hp
    have hkey : |rnd x - x| * 2 ^ 53 ≤ 256 := le_trans herr h1
    have h253 : (0:ℚ) < 2 ^ 53 := by positivity
    rw [show (1:ℚ)/2^45 = 256 / 2^53 by norm_num, le_div_iff₀ h253]
    exact hkey

/-- Monotonicity of binary64 rounding on nonnegative values. -/
theorem rnd_mono {x y : ℚ} (hx : 0 ≤ x) (hxy : x ≤ y) : rnd x ≤ rnd y := by
  rcases eq_or_lt_of_le hx with h0 | h0
  · rw [← h0, rnd_zero]
    exact rnd_nonneg (le_trans hx hxy)
  · have hy : (0:ℚ) < y := lt_of_lt_of_le h0 hxy
    have hex : Int.log 2 x ≤ Int.log 2 y := Int.log_mono_right h0 hxy
    rcases eq_or_lt_of_le hex with heq | hlt
    · unfold rnd rndPos
      rw [if_neg (ne_of_gt h0), if_pos h0, if_neg (ne_of_gt hy), if_pos hy, ← heq]
      have hsc : x * 2 ^ ((52:ℤ) - Int.log 2 x) ≤ y * 2 ^ ((52:ℤ) - Int.log 2 x) :=
        mul_le_mul_of_nonneg_right hxy (le_of_lt (zpow_pos (by norm_num) _))
      have hm := pyRound_mono hsc
      have hmq : ((pyRound (x * 2 ^ ((52:ℤ) - Int.log 2 x)) : ℤ) : ℚ) ≤
          ((pyRound (y * 2 ^ ((52:ℤ) - Int.log 2 x)) : ℤ) : ℚ) := by exact_mod_cast hm
      exact mul_le_mul_of_nonneg_right hmq (le_of_lt (zpow_pos (by norm_num) _))
    · have hub : rnd x ≤ 2 ^ (Int.log 2 x + 1) := by
        unfold rnd rndPos
        rw [if_neg (ne_of_gt h0), if_pos h0]
        set e := Int.log 2 x
        have hxe : x < 2 ^ (e + 1) := by
          have hlt2 := Int.lt_zpow_succ_log_self (b := 2) (by norm_num) x
          rwa [show ((2:ℕ):ℚ) = (2:ℚ) by norm_num] at hlt2
        have hmix : (2:ℚ) ^ (e+1) * 2 ^ ((52:ℤ) - e) = 2 ^ ((53:ℤ)) := by
          rw [zpow_merge]
          congr 1
          ring
        have hscale : x * 2 ^ ((52:ℤ) - e) < 2 ^ ((53:ℤ)) := by
          have hlt3 : x * 2 ^ ((52:ℤ) - e) < 2 ^ (e+1) * 2 ^ ((52:ℤ) - e) :=
            mul_lt_mul_of_pos_right hxe (zpow_pos (by norm_num) _)
          linarith [hmix ▸ hlt3]
        have hpr : (pyRound (x * 2 ^ ((52:ℤ) - e)) : ℚ) ≤ 2 ^ ((53:ℤ)) := by
          have hle2 := pyRound_le (x * 2 ^ ((52:ℤ) - e))
          have hint : (pyRound (x * 2 ^ ((52:ℤ) - e)) : ℚ) < 2 ^ ((53:ℤ)) + 1 := by
            linarith
          have hc2 : ((2:ℚ) ^ (53:ℤ)) = (((2 ^ (53:ℕ) : ℤ)) : ℚ) := by norm_num
          rw [hc2] at hint ⊢
          have hint2 : pyRound (x * 2 ^ ((52:ℤ) - e)) < 2 ^ (53:ℕ) + 1 := by
            exact_mod_cast hint
          have : pyRound (x * 2 ^ ((52:ℤ) - e)) ≤ 2 ^ (53:ℕ) := by omega
          exact_mod_cast this
        calc (pyRound (x * 2 ^ ((52:ℤ) - e)) : ℚ) * 2 ^ (e - (52:ℤ))
            ≤ 2 ^ ((53:ℤ)) * 2 ^ (e - (52:ℤ)) :=
              mul_le_mul_of_nonneg_right hpr (le_of_lt (zpow_pos (by norm_num) _))
          _ = 2 ^ (e + 1) := by
              rw [zpow_merge]
              congr 1
              ring
      have hlb : (2:ℚ) ^ (Int.log 2 y) ≤ rnd y := by
        unfold rnd rndPos
        rw [if_neg (ne_of_gt hy), if_pos hy]
        set e := Int.log 2 y
        have hye : (2:ℚ) ^ e ≤ y := by
          have hle2 := Int.zpow_log_le_self (b := 2) (by norm_num) hy
          rwa [show ((2:ℕ):ℚ) = (2:ℚ) by norm_num] at hle2
        have hmix : (2:ℚ) ^ e * 2 ^ ((52:ℤ) - e) = 2 ^ ((52:ℤ)) := by
          rw [zpow_merge]
          congr 1
          ring
        have hscale : (2:ℚ) ^ ((52:ℤ)) ≤ y * 2 ^ ((52:ℤ) - e) := by
          have hle3 : (2:ℚ) ^ e * 2 ^ ((52:ℤ) - e) ≤ y * 2 ^ ((52:ℤ) - e) :=
            mul_le_mul_of_nonneg_right hye (le_of_lt (zpow_pos (by norm_num) _))
          linarith [hmix ▸ hle3]
        have hpr : (2:ℚ) ^ ((52:ℤ)) ≤ (pyRound (y * 2 ^ ((52:ℤ) - e)) : ℚ) := by
          have hge := le_pyRound (y * 2 ^ ((52:ℤ) - e))
          have hint : (2:ℚ) ^ ((52:ℤ)) - 1 < (pyRound (y * 2 ^ ((52:ℤ) - e)) : ℚ) := by
            linarith
          have hc2 : ((2:ℚ) ^ (52:ℤ)) = (((2 ^ (52:ℕ) : ℤ)) : ℚ) := by norm_num
          rw [hc2] at hint ⊢
          have hint2 : (2 ^ (52:ℕ) : ℤ) - 1 < pyRound (y * 2 ^ ((52:ℤ) - e)) := by
            exact_mod_cast hint
          have : (2 ^ (52:ℕ) : ℤ) ≤ pyRound (y * 2 ^ ((52:ℤ) - e)) := by omega
          exact_mod_cast this
        calc (2:ℚ) ^ e = 2 ^ ((52:ℤ)) * 2 ^ (e - (52:ℤ)) := by
              rw [zpow_merge]
              congr 1
              ring
          _ ≤ (pyRound (y * 2 ^ ((52:ℤ) - e)) : ℚ) * 2 ^ (e - (52:ℤ)) :=
              mul_le_mul_of_nonneg_right hpr (le_of_lt (zpow_pos (by norm_num) _))
      have hmid : (2:ℚ) ^ (Int.log 2 x + 1) ≤ 2 ^ (Int.log 2 y) :=
        zpow_le_zpow_right₀ (by norm_num) (by omega)
      linarith

/-! Data model of src/readiness_app.py.

SCORE_MAP (lines 64-70) and SECTIONS (lines 73-177) are Python dict
literals; dicts preserve insertion order, so they are embedded as
association lists in source order.  A weight literal such as 0.20 denotes
the nearest binary64 value; the embedding stores the decimal literal and
applies rnd wherever the stored float participates in arithmetic. -/

def SCORE_MAP : List (String × ℤ) :=
  [("Initial", 20), ("Developing", 40), ("Defined", 60), ("Managed", 80), ("Optimised", 100)]

/-- SCORE_MAP.get(a, 0) of Python: the value for a known maturity label,
or 0 for any other string. -/
def scoreGet (a : String) : ℤ := (SCORE_MAP.lookup a).getD 0

/-- One question entry of a SECTIONS dict: the question text is the dict
key, options and guidance are the value. -/
structure Question where
  text : String
  options : List String
  guidance : String

/-- One entry of the SECTIONS dict of src/readiness_app.py. -/
structure SectionDef where
  name : String
  weight : ℚ
  icon : String
  description : String
  questions : List Question

/-- The five maturity levels, in scale order (each question offers exactly
this option list). -/
def LEVELS : List String := ["Initial", "Developing", "Defined", "Managed", "Optimised"]

def secGov : SectionDef :=
  { name := "Governance & Ownership", weight := 0.20, icon := "🏛️",
    description := "Strategic oversight and accountability for risk data management",
    questions := [
      { text := "Is there clear data ownership defined for critical risk data elements?",
        options := LEVELS,
        guidance := "CDEs should have named owners with defined responsibilities" },
      { text := "Have policies and procedures been updated to reflect BCBS-239 requirements?",
        options := LEVELS,
        guidance := "Documentation should explicitly reference BCBS-239 principles" },
      { text := "Is there a steering committee or oversight body assigned responsibility for risk data aggregation?",
        options := LEVELS,
        guidance := "Regular meetings and documented decision-making authority required" }] }

def secDQ : SectionDef :=
  { name := "Data Quality & Controls", weight := 0.30, icon := "✓",
    description := "Automated validation and monitoring of data accuracy and completeness",
    questions := [
      { text := "Are automated data quality rules implemented for Critical Data Elements (CDEs)?",
        options := LEVELS,
        guidance := "Rules should run automatically and generate alerts on failures" },
      { text := "Do you measure and monitor data quality SLAs (timeliness, accuracy, completeness)?",
        options := LEVELS,
        guidance := "Metrics should be tracked and reviewed regularly" },
      { text := "Are reconciliation processes defined and executed for risk figures (daily/monthly)?",
        options := LEVELS,
        guidance := "Formal rec processes with documented break resolution" },
      { text := "Is there an exception management process that tracks remediation and closure?",
        options := LEVELS,
        guidance := "Workflow system for logging, assigning, and closing exceptions" }] }

def secLin : SectionDef :=
  { name := "Lineage & Traceability", weight := 0.20, icon := "🔍",
    description := "End-to-end visibility of data flow from source to report",
    questions := [
      { text := "Can you demonstrate end-to-end lineage for each CDE from source to report?",
        options := LEVELS,
        guidance := "Visual lineage or documentation showing complete data flow" },
      { text := "Is transformation logic documented, versioned, and accessible to auditors?",
        options := LEVELS,
        guidance := "Version control for ETL code and business rules" },
      { text := "Can you trace aggregated risk numbers back to source systems and transformations?",
        options := LEVELS,
        guidance := "Ability to drill down from reports to source records" }] }

def secBCBS : SectionDef :=
  { name := "BCBS-239 Specific Controls", weight := 0.20, icon := "🎯",
    description := "Controls specifically addressing BCBS-239 principle requirements",
    questions := [
      { text := "Is there a maintained catalogue of CDEs with owners and business definitions?",
        options := LEVELS,
        guidance := "Centralized repository with metadata and stewardship info" },
      { text := "Are aggregation rules across legal entities defined and validated?",
        options := LEVELS,
        guidance := "Consolidation logic with appropriate eliminations and adjustments" },
      { text := "Do you perform stress or scenario checks to validate risk-data aggregation logic?",
        options := LEVELS,
        guidance := "Testing with boundary conditions and extreme scenarios" },
      { text := "Is there an independent validation function or second-line checks for key controls?",
        options := LEVELS,
        guidance := "Separate team performing periodic control testing" }] }

def secOps : SectionDef :=
  { name := "Operational Resilience & Auditability", weight := 0.10, icon := "🛡️",
    description := "Incident response capability and audit trail completeness",
    questions := [
      { text := "Are runbooks and incident playbooks defined for data incidents affecting risk reporting?",
        options := LEVELS,
        guidance := "Step-by-step procedures for common incident scenarios" },
      { text := "Is an audit trail available for changes to critical data and transformation logic?",
        options := LEVELS,
        guidance := "Complete change logs with user, timestamp, and reason" },
      { text := "Are recovery and reconciliation SLAs defined for critical data flows?",
        options := LEVELS,
        guidance := "Time-bound commitments for data restoration and validation" }] }

def SECTIONS : List SectionDef := [secGov, secDQ, secLin, secBCBS, secOps]

/-- The extended catalogue of src/app.py (lines 71-208): Data Quality drops
to 0.25, Operational Resilience drops to 0.05, and a new section
"Data Timeliness, SLA & Feed Controls" with weight 0.10 appears third. -/
def SECTIONS_v2 : List SectionDef := [
  { name := "Governance & Ownership", weight := 0.20, icon := "🏛️",
    description := "Strategic oversight and accountability for risk data management",
    questions := [
      { text := "Is there clear data ownership defined for critical risk data elements?",
        options := LEVELS,
        guidance := "CDEs should have named owners with defined responsibilities" },
      { text := "Have policies and procedures been updated to reflect BCBS-239 requirements?",
        options := LEVELS,
        guidance := "Documentation should explicitly reference BCBS-239 principles" },
      { text := "Is there a steering committee or oversight body assigned responsibility for risk data aggregation?",
        options := LEVELS,
        guidance := "Regular meetings and documented decision-making authority required" }] },
  { name := "Data Quality & Controls", weight := 0.25, icon := "✓",
    description := "Automated validation and monitoring of data accuracy and completeness",
    questions := [
      { text := "Are automated data quality rules implemented for Critical Data Elements (CDEs)?",
        options := LEVELS,
        guidance := "Rules should run automatically and generate alerts on failures" },
      { text := "Do you measure and monitor data quality SLAs (timeliness, accuracy, completeness)?",
        options := LEVELS,
        guidance := "Metrics should be tracked and reviewed regularly" },
      { text := "Are reconciliation processes defined and executed for risk figures (daily/monthly)?",
        options := LEVELS,
        guidance := "Formal reconciliation processes with documented break resolution" },
      { text := "Is there an exception management process that tracks remediation and closure?",
        options := LEVELS,
        guidance := "Workflow system for logging, assigning, and closing exceptions" }] },
  { name := "Data Timeliness, SLA & Feed Controls", weight := 0.10, icon := "⏱️",
    description := "Timeliness, latency, SLA adherence, and governance of data feeds for BCBS-239 reporting",
    questions := [
      { text := "Is the data feed frequency for this dataset formally defined and aligned with BCBS-239 reporting requirements?",
        options := LEVELS,
        guidance := "Feed frequency (real-time, daily, T+1) should be documented and approved by business and risk stakeholders" },
      { text := "Are SLAs defined and monitored for data availability, timeliness, and completeness for this dataset?",
        options := LEVELS,
        guidance := "SLAs should include refresh cut-off times, availability windows, and completeness thresholds" },
      { text := "Is end-to-end data latency (source to reporting layer) defined, measured, and monitored?",
        options := LEVELS,
        guidance := "Latency thresholds should be defined with monitoring and alerting for breaches" },
      { text := "Are SLA or latency breaches automatically detected, logged, and remediated with audit evidence?",
        options := LEVELS,
        guidance := "Breaches should trigger alerts, root cause analysis, and tracked remediation" },
      { text := "Has data governance been formally applied to this dataset (ownership, lineage, and data quality controls)?",
        options := LEVELS,
        guidance := "Dataset should be catalogued with owner, steward, lineage, and governed data quality rules" }] },
  { name := "Lineage & Traceability", weight := 0.20, icon := "🔍",
    description := "End-to-end visibility of data flow from source to report",
    questions := [
      { text := "Can you demonstrate end-to-end lineage for each CDE from source to report?",
        options := LEVELS,
        guidance := "Visual lineage or documentation showing complete data flow" },
      { text := "Is transformation logic documented, versioned, and accessible to auditors?",
        options := LEVELS,
        guidance := "Version control for ETL code and business rules" },
      { text := "Can you trace aggregated risk numbers back to source systems and transformations?",
        options := LEVELS,
        guidance := "Ability to drill down from reports to source records" }] },
  { name := "BCBS-239 Specific Controls", weight := 0.20, icon := "🎯",
    description := "Controls specifically addressing BCBS-239 principle requirements",
    questions := [
      { text := "Is there a maintained catalogue of CDEs with owners and business definitions?",
        options := LEVELS,
        guidance := "Centralized repository with metadata and stewardship info" },
      { text := "Are aggregation rules across legal entities defined and validated?",
        options := LEVELS,
        guidance := "Consolidation logic with appropriate eliminations and adjustments" },
      { text := "Do you perform stress or scenario checks to validate risk-data aggregation logic?",
        options := LEVELS,
        guidance := "Testing with boundary conditions and extreme scenarios" },
      { text := "Is there an independent validation function or second-line checks for key controls?",
        options := LEVELS,
        guidance := "Separate team performing periodic control testing" }] },
  { name := "Operational Resilience & Auditability", weight := 0.05, icon := "🛡️",
    description := "Incident response capability and audit trail completeness",
    questions := [
      { text := "Are runbooks and incident playbooks defined for data incidents affecting risk reporting?",
        options := LEVELS,
        guidance := "Step-by-step procedures for common incident scenarios" },
      { text := "Is an audit trail available for changes to critical data and transformation logic?",
        options := LEVELS,
        guidance := "Complete change logs with user, timestamp, and reason" },
      { text := "Are recovery and reconciliation SLAs defined for critical data flows?",
        options := LEVELS,
        guidance := "Time-bound commitments for data restoration and validation" }] }]

/-! The scoring engine (compute_scores, src/readiness_app.py lines 202-216). -/

/-- One lookup SCORE_MAP.get(answers_map[q], 0): a missing key raises
KeyError (modelled as a typed error value), an unknown label scores 0. -/
def questionScore (answers : List (String × String)) (q : Question) : Except String ℤ :=
  match answers.lookup q.text with
  | some a => .ok (scoreGet a)
  | none => .error ("KeyError: " ++ q.text)

/-- SECTIONS[s]["weight"] of Python, looked up by section name.  The stored
dict value is the binary64 of the weight literal, recovered by rnd at the
use site. -/
def weightOf (sections : List SectionDef) (name : String) : ℚ :=
  ((sections.find? (fun sec => sec.name == name)).map SectionDef.weight).getD 0

/-- The body of the per-section loop of compute_scores: score every
question of the section, average (guarded by the emptiness check of the
question list, in which case the average is the plain int 0), and round. -/
def sectionEntry (answers : List (String × String)) (sec : SectionDef) :
    Except String (String × ℤ) := do
  let question_scores ← sec.questions.mapM (questionScore answers)
  let avg_score : ℚ :=
    if question_scores ≠ [] then
      flDiv ((question_scores.sum : ℤ) : ℚ) ((question_scores.length : ℕ) : ℚ)
    else 0
  pure (sec.name, pyRound avg_score)

/-- compute_scores of src/readiness_app.py (lines 202-216), generalized
over the catalogue dict it reads (the source reads the module-level
SECTIONS).  The overall score is the float sum, in dict order, of section
score times section weight, rounded by the Python round. -/
def compute_scores_over (sections : List SectionDef) (answers : List (String × String)) :
    Except String (List (String × ℤ) × ℤ) := do
  let section_scores ← sections.mapM (sectionEntry answers)
  let overall := pyRound (section_scores.foldl
    (fun acc p => flAdd acc (flMul ((p.2 : ℤ) : ℚ) (rnd (weightOf sections p.1)))) 0)
  pure (section_scores, overall)

/-- compute_scores as in the source: over the module-level SECTIONS. -/
def compute_scores (answers : List (String × String)) :
    Except String (List (String × ℤ) × ℤ) :=
  compute_scores_over SECTIONS answers

/-- get_readiness_level of src/readiness_app.py (lines 218-229). -/
def get_readiness_level (score : ℤ) : String × String :=
  if score ≥ 90 then ("Optimised", "🟢")
  else if score ≥ 75 then ("Managed", "🔵")
  else if score ≥ 60 then ("Defined", "🟡")
  else if score ≥ 40 then ("Developing", "🟠")
  else ("Initial", "🔴")

/-! The recommendation engine (generate_recommendations, lines 231-277). -/

structure Recommendation where
  sectionName : String
  score : ℤ
  priority : String
  actions : List String
deriving DecidableEq

/-- The fixed five-entry remediation action table: the if/elif chain of
generate_recommendations, which leaves the initial empty list in place for
any section name it does not recognize. -/
def recActions (s : String) : List String :=
  if s = "Governance & Ownership" then
    ["Establish a BCBS-239 steering committee",
     "Assign data owners for all CDEs",
     "Update governance policies to reference BCBS-239"]
  else if s = "Data Quality & Controls" then
    ["Implement automated DQ rules for CDEs",
     "Define and monitor DQ SLAs",
     "Establish exception management workflows"]
  else if s = "Lineage & Traceability" then
    ["Document end-to-end lineage for all CDEs",
     "Version control all transformation logic",
     "Enable drill-down capability in reports"]
  else if s = "BCBS-239 Specific Controls" then
    ["Create comprehensive CDE catalogue",
     "Validate aggregation rules across entities",
     "Implement independent validation checks"]
  else if s = "Operational Resilience & Auditability" then
    ["Develop incident response runbooks",
     "Enable complete audit trails",
     "Define recovery SLAs for critical flows"]
  else []

/-- generate_recommendations of src/readiness_app.py (lines 231-277):
iterates the section score dict in order, appending a record for every
section scoring strictly below 70. -/
def generate_recommendations (section_scores : List (String × ℤ)) : List Recommendation :=
  section_scores.foldl (fun recommendations p =>
    if p.2 < 70 then
      recommendations ++ [{ sectionName := p.1, score := p.2,
                            priority := if p.2 < 50 then "High" else "Medium",
                            actions := recActions p.1 }]
    else recommendations) []

/-! The exporter (export_to_csv lines 279-297, export_to_json lines 299-313). -/

structure CsvRow where
  Section : String
  Question : String
  Answer : String
  Score : ℤ
  Section_Score : ℤ
  Section_Weight : ℚ
deriving DecidableEq

/-- export_to_csv (lines 279-297), generalized over the catalogue dict it
reads: one row per question in catalogue order; answers_map[question] and
section_scores[section_name] are dict indexing and raise KeyError when
missing.  The data frame together with its overall_score attribute is the
row list paired with the overall score. -/
def csvRow (answers : List (String × String)) (section_scores : List (String × ℤ))
    (sec : SectionDef) (q : Question) : Except String CsvRow :=
  match answers.lookup q.text with
  | some answer =>
    match section_scores.lookup sec.name with
    | some ss => Except.ok { Section := sec.name, Question := q.text, Answer := answer,
                             Score := scoreGet answer, Section_Score := ss,
                             Section_Weight := rnd sec.weight }
    | none => Except.error ("KeyError: " ++ sec.name)
  | none => Except.error ("KeyError: " ++ q.text)

def export_to_csv_over (sections : List SectionDef) (answers : List (String × String))
    (section_scores : List (String × ℤ)) (overall_score : ℤ) :
    Except String (List CsvRow × ℤ) := do
  let rowBlocks ← sections.mapM (fun sec =>
    sec.questions.mapM (csvRow answers section_scores sec))
  pure (rowBlocks.join, overall_score)

def export_to_csv (answers : List (String × String)) (section_scores : List (String × ℤ))
    (overall_score : ℤ) : Except String (List CsvRow × ℤ) :=
  export_to_csv_over SECTIONS answers section_scores overall_score

/-- JSON-like values, enough to express the structured export object. -/
inductive JVal where
  | s : String → JVal
  | i : ℤ → JVal
  | q : ℚ → JVal
  | obj : List (String × JVal) → JVal

/-- export_to_json of src/readiness_app.py (lines 299-313).  The parameter
now stands for datetime.datetime.utcnow().isoformat(), the one
non-deterministic input; the source appends the literal Z to it. -/
def export_to_json (now : String) (answers : List (String × String))
    (section_scores : List (String × ℤ)) (overall_score : ℤ) : JVal :=
  .obj [
    ("assessment_metadata", .obj [
      ("generated_at", .s (now ++ "Z")),
      ("app_version", .s "2.0"),
      ("assessment_type", .s "BCBS-239 Readiness")]),
    ("scores", .obj [
      ("overall", .i overall_score),
      ("sections", .obj (section_scores.map (fun p => (p.1, JVal.i p.2))))]),
    ("answers", .obj (answers.map (fun p => (p.1, JVal.s p.2)))),
    ("section_weights", .obj (SECTIONS.map (fun sec => (sec.name, JVal.q (rnd sec.weight)))))]

/-- The keys of a JSON object, in order. -/
def topKeys : JVal → List String
  | .obj l => l.map Prod.fst
  | _ => []

/-- Field access inside a JSON object. -/
def jGet (j : JVal) (k : String) : Option JVal :=
  match j with
  | .obj l => l.lookup k
  | _ => none

/-- Recover the answers mapping from the structured export, the re-ingestion
step of the round-trip property. -/
def jAnswers (j : JVal) : List (String × String) :=
  match jGet j "answers" with
  | some (.obj l) => l.filterMap (fun p =>
      match p.2 with
      | .s v => some (p.1, v)
      | _ => none)
  | _ => []

/-! Session state (init_session_state lines 183-196, the reset handler
lines 591-594, and the main flow lines 582-634). -/

/-- The Streamlit session dictionary, restricted to the three keys the
source uses; a None field models a key that is absent from the dict. -/
structure SessionState where
  started : Option Bool
  answers : Option (List (String × String))
  show_guidance : Option (List (String × Bool))
deriving DecidableEq

/-- The default answer set written by init_session_state: every catalogue
question mapped to "Defined". -/
def defaultAnswers (sections : List SectionDef) : List (String × String) :=
  (sections.map (fun sec => sec.questions.map (fun q => (q.text, "Defined")))).join

/-- init_session_state (lines 183-196): each key is populated only when it
is absent from the session dict. -/
def init_session_state (sections : List SectionDef) (st : SessionState) : SessionState :=
  { started := match st.started with
      | some b => some b
      | none => some false,
    answers := match st.answers with
      | some a => some a
      | none => some (defaultAnswers sections),
    show_guidance := match st.show_guidance with
      | some g => some g
      | none => some [] }

/-- Python dict assignment d[k] = v: replace in place, else append. -/
def dictSet : List (String × String) → String → String → List (String × String)
  | [], k, v => [(k, v)]
  | (k', v') :: rest, k, v =>
    if k' = k then (k, v) :: rest else (k', v') :: dictSet rest k v

/-- The questionnaire rendering pass (render_questionnaire, lines 385-433):
for every catalogue question in order it writes the value returned by the
radio widget into the answers dict.  The widget returns are supplied by the
external UI collaborator as the selection function. -/
def fillAnswers (sections : List SectionDef) (sel : String → String)
    (st : SessionState) : SessionState :=
  { st with answers := some ((sections.map SectionDef.questions).join.foldl
      (fun acc q => dictSet acc q.text (sel q.text)) (st.answers.getD [])) }

/-- One script run of main (lines 582-634): initialize session state; a
reset click (only offered while started) clears started and sets the
answers dict to empty, then reruns; on the landing page a start click sets
started and reruns; otherwise the questionnaire pass rewrites every answer
and compute_scores runs on the resulting store.  The second component is
the scoring result of this run, if any. -/
def runScript (sections : List SectionDef) (resetClicked startClicked : Bool)
    (sel : String → String) (st0 : SessionState) :
    SessionState × Option (Except String (List (String × ℤ) × ℤ)) :=
  if (init_session_state sections st0).started = some true ∧ resetClicked = true then
    ({ init_session_state sections st0 with started := some false, answers := some [] }, none)
  else if (init_session_state sections st0).started ≠ some true then
    (if startClicked = true then
      ({ init_session_state sections st0 with started := some true }, none)
     else (init_session_state sections st0, none))
  else
    (fillAnswers sections sel (init_session_state sections st0),
     some (compute_scores_over sections
       ((fillAnswers sections sel (init_session_state sections st0)).answers.getD [])))

/-! Pure characterization of the scoring path on a fully populated store. -/

/-- Lookup with an irrelevant default, used only where presence is known. -/
def ansOf (answers : List (String × String)) (t : String) : String :=
  (answers.lookup t).getD ""

def sectionQScores (answers : List (String × String)) (sec : SectionDef) : List ℤ :=
  sec.questions.map (fun q => scoreGet (ansOf answers q.text))

def sectionAvgF (answers : List (String × String)) (sec : SectionDef) : ℚ :=
  if sectionQScores answers sec ≠ [] then
    flDiv (((sectionQScores answers sec).sum : ℤ) : ℚ)
      (((sectionQScores answers sec).length : ℕ) : ℚ)
  else 0

def sectionScoreF (answers : List (String × String)) (sec : SectionDef) : ℤ :=
  pyRound (sectionAvgF answers sec)

def sectionScoresF (sections : List SectionDef) (answers : List (String × String)) :
    List (String × ℤ) :=
  sections.map (fun sec => (sec.name, sectionScoreF answers sec))

def overallFoldF (sections : List SectionDef) (scores : List (String × ℤ)) : ℚ :=
  scores.foldl (fun acc p => flAdd acc (flMul ((p.2 : ℤ) : ℚ) (rnd (weightOf sections p.1)))) 0

def overallF (sections : List SectionDef) (answers : List (String × String)) : ℤ :=
  pyRound (overallFoldF sections (sectionScoresF sections answers))

/-- Every catalogue question has an entry in the store. -/
def FullAnswers (sections : List SectionDef) (answers : List (String × String)) : Prop :=
  ∀ sec ∈ sections, ∀ q ∈ sec.questions, (answers.lookup q.text).isSome

instance (sections : List SectionDef) (answers : List (String × String)) :
    Decidable (FullAnswers sections answers) := by
  unfold FullAnswers
  infer_instance

theorem mapM_questionScore_ok (answers : List (String × String)) (qs : List Question)
    (h : ∀ q ∈ qs, (answers.lookup q.text).isSome) :
    qs.mapM (questionScore answers) =
      .ok (qs.map (fun q => scoreGet (ansOf answers q.text))) := by
  induction qs with
  | nil => rfl
  | cons q rest ih =>
    have hq := h q (List.mem_cons_self q rest)
    obtain ⟨a, ha⟩ := Option.isSome_iff_exists.mp hq
    have h1 : questionScore answers q = .ok (scoreGet a) := by
      unfold questionScore
      rw [ha]
    have h2 : ansOf answers q.text = a := by
      unfold ansOf
      rw [ha]
      rfl
    rw [List.mapM_cons, h1, ih (fun r hr => h r (List.mem_cons_of_mem q hr)),
      List.map_cons, h2]
    rfl

theorem mapM_ok_of_eq {α β : Type} (f : α → Except String β) (g : α → β) (l : List α)
    (h : ∀ x ∈ l, f x = .ok (g x)) : l.mapM f = .ok (l.map g) := by
  induction l with
  | nil => rfl
  | cons x rest ih =>
    rw [List.mapM_cons, h x (List.mem_cons_self x rest),
      ih (fun y hy => h y (List.mem_cons_of_mem x hy)), List.map_cons]
    rfl

theorem mapM_ok_of_forall {α β : Type} (f : α → Except String β) (l : List α)
    (h : ∀ x ∈ l, ∃ y, f x = .ok y) : ∃ ys, l.mapM f = .ok ys := by
  induction l with
  | nil => exact ⟨[], rfl⟩
  | cons x rest ih =>
    obtain ⟨y, hy⟩ := h x (List.mem_cons_self x rest)
    obtain ⟨ys, hys⟩ := ih (fun z hz => h z (List.mem_cons_of_mem x hz))
    refine ⟨y :: ys, ?_⟩
    rw [List.mapM_cons, hy, hys]
    rfl

theorem mapM_ok_forall {α β : Type} {f : α → Except String β} {l : List α}
    {ys : List β} (h : l.mapM f = .ok ys) : ∀ x ∈ l, ∃ y, f x = .ok y := by
  induction l generalizing ys with
  | nil => intro x hx; exact absurd hx (List.not_mem_nil x)
  | cons z rest ih =>
    intro x hx
    rw [List.mapM_cons] at h
    cases hf : f z with
    | error e =>
      rw [hf] at h
      simp [Bind.bind, Except.bind] at h
    | ok y =>
      rw [hf] at h
      cases hr : rest.mapM f with
      | error e =>
        rw [hr] at h
        simp [Bind.bind, Except.bind] at h
      | ok ys2 =>
        rcases List.mem_cons.mp hx with rfl | hmem
        · exact ⟨y, hf⟩
        · exact ih hr x hmem

theorem sectionEntry_ok (answers : List (String × String)) (sec : SectionDef)
    (h : ∀ q ∈ sec.questions, (answers.lookup q.text).isSome) :
    sectionEntry answers sec = .ok (sec.name, sectionScoreF answers sec) := by
  unfold sectionEntry
  rw [mapM_questionScore_ok answers sec.questions h]
  rfl

theorem compute_scores_over_full (sections : List SectionDef)
    (answers : List (String × String)) (h : FullAnswers sections answers) :
    compute_scores_over sections answers =
      .ok (sectionScoresF sections answers, overallF sections answers) := by
  unfold compute_scores_over
  rw [mapM_ok_of_eq (sectionEntry answers)
    (fun sec => (sec.name, sectionScoreF answers sec)) sections
    (fun sec hs => sectionEntry_ok answers sec (h sec hs))]
  rfl

theorem sectionEntry_ok_full (answers : List (String × String)) (sec : SectionDef)
    (v : String × ℤ) (h : sectionEntry answers sec = .ok v) :
    ∀ q ∈ sec.questions, (answers.lookup q.text).isSome := by
  intro q hq
  unfold sectionEntry at h
  cases hm : sec.questions.mapM (questionScore answers) with
  | error e =>
    rw [hm] at h
    simp [Bind.bind, Except.bind] at h
  | ok qs =>
    obtain ⟨y, hy⟩ := mapM_ok_forall hm q hq
    unfold questionScore at hy
    cases hl : answers.lookup q.text with
    | none =>
      rw [hl] at hy
      simp at hy
    | some a => rfl

theorem compute_scores_over_ok_full (sections : List SectionDef)
    (answers : List (String × String)) (r : List (String × ℤ) × ℤ)
    (h : compute_scores_over sections answers = .ok r) : FullAnswers sections answers := by
  intro sec hsec q hq
  unfold compute_scores_over at h
  cases hm : sections.mapM (sectionEntry answers) with
  | error e =>
    rw [hm] at h
    simp [Bind.bind, Except.bind] at h
  | ok ss =>
    obtain ⟨v, hv⟩ := mapM_ok_forall hm sec hsec
    exact sectionEntry_ok_full answers sec v hv q hq

/-- An integer below 2 to the 53 is a binary64 value: rounding it is exact. -/
theorem rnd_intCast {z : ℤ} (h0 : 0 < z) (h1 : z < 2 ^ 53) : rnd ((z:ℤ):ℚ) = (z:ℚ) := by
  have hzq : (0:ℚ) < (z:ℚ) := by exact_mod_cast h0
  set e := Int.log 2 ((z:ℚ)) with he
  have hle : (2:ℚ) ^ e ≤ (z:ℚ) := by
    have h := Int.zpow_log_le_self (b := 2) (by norm_num) hzq
    rwa [show ((2:ℕ):ℚ) = (2:ℚ) by norm_num] at h
  have hlt : ((z:ℚ)) < 2 ^ (e + 1) := by
    have h := Int.lt_zpow_succ_log_self (b := 2) (by norm_num) ((z:ℚ))
    rwa [show ((2:ℕ):ℚ) = (2:ℚ) by norm_num] at h
  have he0 : 0 ≤ e := by
    have hz1 : (1:ℚ) ≤ (z:ℚ) := by exact_mod_cast h0
    have hmono := Int.log_mono_right (b := 2) (by norm_num : (0:ℚ) < 1) hz1
    rw [Int.log_one_right] at hmono
    rw [he]
    exact hmono
  have he52 : e ≤ 52 := by
    by_contra hc
    push_neg at hc
    have h2 : (2:ℚ) ^ ((53:ℤ)) ≤ 2 ^ e := zpow_le_zpow_right₀ (by norm_num) (by omega)
    have h3 : ((2:ℚ) ^ (53:ℤ)) = (((2:ℤ) ^ (53:ℕ) : ℤ) : ℚ) := by
      norm_num
    have h4 : (((2:ℤ) ^ (53:ℕ) : ℤ) : ℚ) ≤ (z:ℚ) := by
      rw [← h3]
      exact le_trans h2 hle
    have h5 : (2:ℤ) ^ (53:ℕ) ≤ z := by exact_mod_cast h4
    omega
  have hscast : ((z:ℚ)) * 2 ^ ((52:ℤ) - e) = (((z * 2 ^ ((52 - e).toNat) : ℤ)) : ℚ) := by
    rw [show ((52:ℤ) - e) = (((52 - e).toNat : ℕ) : ℤ) by omega, zpow_natCast]
    push_cast
    simp
    omega
  have hm : pyRound ((z:ℚ) * 2 ^ ((52:ℤ) - e)) = z * 2 ^ ((52 - e).toNat) := by
    rw [hscast]
    exact pyRound_intCast _
  have hres := rnd_eq_of_log e (z * 2 ^ ((52 - e).toNat)) hzq he.symm hm
  rw [hres]
  push_cast
  rw [show ((2:ℚ) ^ ((52 - e).toNat : ℕ)) = 2 ^ (((52 - e).toNat : ℕ) : ℤ) by
    rw [zpow_natCast]]
  rw [mul_assoc, zpow_merge]
  rw [show (((52 - e).toNat : ℕ) : ℤ) + (e - 52) = 0 by omega]
  norm_num

/-! Specification model of the scoring arithmetic: exact rational means and
weighted sums, rounded by the Python round (nearest integer, half to even;
on this data ties can arise only in the overall sum). -/

def specSectionAvg (answers : List (String × String)) (sec : SectionDef) : ℚ :=
  (((sectionQScores answers sec).sum : ℤ) : ℚ) / ((sec.questions.length : ℕ) : ℚ)

def specSectionScore (answers : List (String × String)) (sec : SectionDef) : ℤ :=
  pyRound (specSectionAvg answers sec)

def specExactOverall (sections : List SectionDef) (answers : List (String × String)) : ℚ :=
  (sections.map (fun sec => ((specSectionScore answers sec : ℤ) : ℚ) * sec.weight)).sum

def specOverall (sections : List SectionDef) (answers : List (String × String)) : ℤ :=
  pyRound (specExactOverall sections answers)

/-- The exact value is not a half-integer, so every nearest-integer
rounding rule agrees on it. -/
def NotHalf (q : ℚ) : Prop := ∀ m : ℤ, q ≠ (m:ℚ) + 1/2

/-! Margin lemmas: a rational with small denominator, if it is not a
half-integer, sits at a fixed distance below one half from its rounding,
which dominates every float error in this program. -/

theorem dist_pyRound_of_mul_three {q : ℚ} {z : ℤ} (hz : (3:ℚ) * q = z) :
    |q - (pyRound q : ℚ)| ≤ 1/3 := by
  have h1 := le_pyRound q
  have h2 := pyRound_le q
  set n := pyRound q with hn
  have hA : ((z - 3*n : ℤ) : ℚ) = 3*q - 3*n := by
    push_cast
    linarith
  have hieq : (-2:ℤ) < z - 3*n := by
    have hq : (-2 : ℚ) < ((z - 3*n:ℤ):ℚ) := by
      rw [hA]
      linarith
    exact_mod_cast hq
  have hieq2 : (z - 3*n : ℤ) < 2 := by
    have hq : ((z - 3*n:ℤ):ℚ) < 2 := by
      rw [hA]
      linarith
    exact_mod_cast hq
  have hr : ((z - 3*n:ℤ):ℚ) ≤ 1 := by exact_mod_cast (by omega : (z - 3*n : ℤ) ≤ 1)
  have hl : (-1:ℚ) ≤ ((z - 3*n:ℤ):ℚ) := by exact_mod_cast (by omega : (-1:ℤ) ≤ z - 3*n)
  rw [hA] at hr hl
  rw [abs_le]
  exact ⟨by linarith, by linarith⟩

theorem dist_pyRound_of_mul_ten {q : ℚ} {z : ℤ} (hz : (10:ℚ) * q = z) (hnh : NotHalf q) :
    |q - (pyRound q : ℚ)| ≤ 2/5 := by
  have h1 := le_pyRound q
  have h2 := pyRound_le q
  set n := pyRound q with hn
  have hA : ((z - 10*n : ℤ) : ℚ) = 10*q - 10*n := by
    push_cast
    linarith
  have hieq : (-6:ℤ) < z - 10*n := by
    have hq : (-6 : ℚ) < ((z - 10*n:ℤ):ℚ) := by
      rw [hA]
      linarith
    exact_mod_cast hq
  have hieq2 : (z - 10*n : ℤ) < 6 := by
    have hq : ((z - 10*n:ℤ):ℚ) < 6 := by
      rw [hA]
      linarith
    exact_mod_cast hq
  have hne5 : (z - 10*n : ℤ) ≠ 5 := by
    intro hc
    apply hnh n
    have hq : ((z - 10*n:ℤ):ℚ) = 5 := by exact_mod_cast hc
    rw [hA] at hq
    linarith
  have hnem5 : (z - 10*n : ℤ) ≠ -5 := by
    intro hc
    apply hnh (n - 1)
    have hq : ((z - 10*n:ℤ):ℚ) = -5 := by exact_mod_cast hc
    rw [hA] at hq
    push_cast
    linarith
  have hr : ((z - 10*n:ℤ):ℚ) ≤ 4 := by exact_mod_cast (by omega : (z - 10*n : ℤ) ≤ 4)
  have hl : (-4:ℚ) ≤ ((z - 10*n:ℤ):ℚ) := by exact_mod_cast (by omega : (-4:ℤ) ≤ z - 10*n)
  rw [hA] at hr hl
  rw [abs_le]
  exact ⟨by linarith, by linarith⟩
theorem rnd_w020 : rnd (0.20 : ℚ) = 7205759403792794 / 2 ^ 55 :=
  rnd_eval_inv 3 7205759403792794 (by norm_num) (by norm_num)
      (pyRound_eq_of (by norm_num) (by norm_num))

theorem rnd_w030 : rnd (0.30 : ℚ) = 5404319552844595 / 2 ^ 54 :=
  rnd_eval_inv 2 5404319552844595 (by norm_num) (by norm_num)
      (pyRound_eq_of (by norm_num) (by norm_num))

theorem rnd_w010 : rnd (0.10 : ℚ) = 7205759403792794 / 2 ^ 56 :=
  rnd_eval_inv 4 7205759403792794 (by norm_num) (by norm_num)
      (pyRound_eq_of (by norm_num) (by norm_num))

theorem rndWeight_secGov : rnd (weightOf SECTIONS "Governance & Ownership") = 7205759403792794 / 2 ^ 55 := by
  rw [show weightOf SECTIONS "Governance & Ownership" = (0.20 : ℚ) from rfl]
  exact rnd_w020

theorem rndWeight_secDQ : rnd (weightOf SECTIONS "Data Quality & Controls") = 5404319552844595 / 2 ^ 54 := by
  rw [show weightOf SECTIONS "Data Quality & Controls" = (0.30 : ℚ) from rfl]
  exact rnd_w030

theorem rndWeight_secLin : rnd (weightOf SECTIONS "Lineage & Traceability") = 7205759403792794 / 2 ^ 55 := by
  rw [show weightOf SECTIONS "Lineage & Traceability" = (0.20 : ℚ) from rfl]
  exact rnd_w020

theorem rndWeight_secBCBS : rnd (weightOf SECTIONS "BCBS-239 Specific Controls") = 7205759403792794 / 2 ^ 55 := by
  rw [show weightOf SECTIONS "BCBS-239 Specific Controls" = (0.20 : ℚ) from rfl]
  exact rnd_w020

theorem rndWeight_secOps : rnd (weightOf SECTIONS "Operational Resilience & Auditability") = 7205759403792794 / 2 ^ 56 := by
  rw [show weightOf SECTIONS "Operational Resilience & Auditability" = (0.10 : ℚ) from rfl]
  exact rnd_w010

/-- The store produced by init_session_state on a fresh session: every
question answered Defined. -/
def ansDefault : List (String × String) := defaultAnswers SECTIONS

theorem ansDefault_qs_secGov : sectionQScores ansDefault secGov = [60, 60, 60] := by decide

theorem ansDefault_avg_secGov : sectionAvgF ansDefault secGov = 8444249301319680 / 2 ^ 47 := by
  unfold sectionAvgF
  rw [ansDefault_qs_secGov, if_pos (by decide : ([60, 60, 60] : List ℤ) ≠ [])]
  rw [show (List.sum ([60, 60, 60] : List ℤ)) = 180 by decide,
    show (List.length ([60, 60, 60] : List ℤ)) = 3 by decide]
  unfold flDiv
  exact rnd_eval_nat 5 8444249301319680 (by norm_num) (by norm_num) (by norm_num)
      (pyRound_eq_of (by norm_num) (by norm_num))

theorem ansDefault_score_secGov : sectionScoreF ansDefault secGov = 60 := by
  unfold sectionScoreF
  rw [ansDefault_avg_secGov]
  exact pyRound_eq_of (by norm_num) (by norm_num)

theorem ansDefault_qs_secDQ : sectionQScores ansDefault secDQ = [60, 60, 60, 60] := by decide

theorem ansDefault_avg_secDQ : sectionAvgF ansDefault secDQ = 8444249301319680 / 2 ^ 47 := by
  unfold sectionAvgF
  rw [ansDefault_qs_secDQ, if_pos (by decide : ([60, 60, 60, 60] : List ℤ) ≠ [])]
  rw [show (List.sum ([60, 60, 60, 60] : List ℤ)) = 240 by decide,
    show (List.length ([60, 60, 60, 60] : List ℤ)) = 4 by decide]
  unfold flDiv
  exact rnd_eval_nat 5 8444249301319680 (by norm_num) (by norm_num) (by norm_num)
      (pyRound_eq_of (by norm_num) (by norm_num))

theorem ansDefault_score_secDQ : sectionScoreF ansDefault secDQ = 60 := by
  unfold sectionScoreF
  rw [ansDefault_avg_secDQ]
  exact pyRound_eq_of (by norm_num) (by norm_num)

theorem ansDefault_qs_secLin : sectionQScores ansDefault secLin = [60, 60, 60] := by decide

theorem ansDefault_avg_secLin : sectionAvgF ansDefault secLin = 8444249301319680 / 2 ^ 47 := by
  unfold sectionAvgF
  rw [ansDefault_qs_secLin, if_pos (by decide : ([60, 60, 60] : List ℤ) ≠ [])]
  rw [show (List.sum ([60, 60, 60] : List ℤ)) = 180 by decide,
    show (List.length ([60, 60, 60] : List ℤ)) = 3 by decide]
  unfold flDiv
  exact rnd_eval_nat 5 8444249301319680 (by norm_num) (by norm_num) (by norm_num)
      (pyRound_eq_of (by norm_num) (by norm_num))

theorem ansDefault_score_secLin : sectionScoreF ansDefault secLin = 60 := by
  unfold sectionScoreF
  rw [ansDefault_avg_secLin]
  exact pyRound_eq_of (by norm_num) (by norm_num)

theorem ansDefault_qs_secBCBS : sectionQScores ansDefault secBCBS = [60, 60, 60, 60] := by decide

theorem ansDefault_avg_secBCBS : sectionAvgF ansDefault secBCBS = 8444249301319680 / 2 ^ 47 := by
  unfold sectionAvgF
  rw [ansDefault_qs_secBCBS, if_pos (by decide : ([60, 60, 60, 60] : List ℤ) ≠ [])]
  rw [show (List.sum ([60, 60, 60, 60] : List ℤ)) = 240 by decide,
    show (List.length ([60, 60, 60, 60] : List ℤ)) = 4 by decide]
  unfold flDiv
  exact rnd_eval_nat 5 8444249301319680 (by norm_num) (by norm_num) (by norm_num)
      (pyRound_eq_of (by norm_num) (by norm_num))

theorem ansDefault_score_secBCBS : sectionScoreF ansDefault secBCBS = 60 := by
  unfold sectionScoreF
  rw [ansDefault_avg_secBCBS]
  exact pyRound_eq_of (by norm_num) (by norm_num)

theorem ansDefault_qs_secOps : sectionQScores ansDefault secOps = [60, 60, 60] := by decide

theorem ansDefault_avg_secOps : sectionAvgF ansDefault secOps = 8444249301319680 / 2 ^ 47 := by
  unfold sectionAvgF
  rw [ansDefault_qs_secOps, if_pos (by decide : ([60, 60, 60] : List ℤ) ≠ [])]
  rw [show (List.sum ([60, 60, 60] : List ℤ)) = 180 by decide,
    show (List.length ([60, 60, 60] : List ℤ)) = 3 by decide]
  unfold flDiv
  exact rnd_eval_nat 5 8444249301319680 (by norm_num) (by norm_num) (by norm_num)
      (pyRound_eq_of (by norm_num) (by norm_num))

theorem ansDefault_score_secOps : sectionScoreF ansDefault secOps = 60 := by
  unfold sectionScoreF
  rw [ansDefault_avg_secOps]
  exact pyRound_eq_of (by norm_num) (by norm_num)

theorem ansDefault_scores : sectionScoresF SECTIONS ansDefault = [("Governance & Ownership", 60), ("Data Quality & Controls", 60), ("Lineage & Traceability", 60), ("BCBS-239 Specific Controls", 60), ("Operational Resilience & Auditability", 60)] := by
  simp only [sectionScoresF, SECTIONS, List.map_cons, List.map_nil,
    ansDefault_score_secGov, ansDefault_score_secDQ, ansDefault_score_secLin, ansDefault_score_secBCBS, ansDefault_score_secOps]
  rfl

theorem ansDefault_fold : overallFoldF SECTIONS (sectionScoresF SECTIONS ansDefault) = 8444249301319680 / 2 ^ 47 := by
  rw [ansDefault_scores]
  simp only [overallFoldF, List.foldl_cons, List.foldl_nil]
  rw [rndWeight_secGov, rndWeight_secDQ, rndWeight_secLin, rndWeight_secBCBS, rndWeight_secOps]
  have hansDefaultp1 : flMul ((60:ℤ):ℚ) (7205759403792794 / 2 ^ 55) = 6755399441055744 / 2 ^ 49 := by
    unfold flMul
    exact rnd_eval_nat 3 6755399441055744 (by norm_num) (by norm_num) (by norm_num)
      (pyRound_eq_of (by norm_num) (by norm_num))
  have hansDefaulta1 : flAdd (0) (6755399441055744 / 2 ^ 49) = 6755399441055744 / 2 ^ 49 := by
    unfold flAdd
    exact rnd_eval_nat 3 6755399441055744 (by norm_num) (by norm_num) (by norm_num)
      (pyRound_eq_of (by norm_num) (by norm_num))
  have hansDefaultp2 : flMul ((60:ℤ):ℚ) (5404319552844595 / 2 ^ 54) = 5066549580791808 / 2 ^ 48 := by
    unfold flMul
    exact rnd_eval_nat 4 5066549580791808 (by norm_num) (by norm_num) (by norm_num)
      (pyRound_eq_of (by norm_num) (by norm_num))
  have hansDefaulta2 : flAdd (6755399441055744 / 2 ^ 49) (5066549580791808 / 2 ^ 48) = 8444249301319680 / 2 ^ 48 := by
    unfold flAdd
    exact rnd_eval_nat 4 8444249301319680 (by norm_num) (by norm_num) (by norm_num)
      (pyRound_eq_of (by norm_num) (by norm_num))
  have hansDefaulta3 : flAdd (8444249301319680 / 2 ^ 48) (6755399441055744 / 2 ^ 49) = 5910974510923776 / 2 ^ 47 := by
    unfold flAdd
    exact rnd_eval_nat 5 5910974510923776 (by norm_num) (by norm_num) (by norm_num)
      (pyRound_eq_of (by norm_num) (by norm_num))
  have hansDefaulta4 : flAdd (5910974510923776 / 2 ^ 47) (6755399441055744 / 2 ^ 49) = 7599824371187712 / 2 ^ 47 := by
    unfold flAdd
    exact rnd_eval_nat 5 7599824371187712 (by norm_num) (by norm_num) (by norm_num)
      (pyRound_eq_of (by norm_num) (by norm_num))
  have hansDefaultp5 : flMul ((60:ℤ):ℚ) (7205759403792794 / 2 ^ 56) = 6755399441055744 / 2 ^ 50 := by
    unfold flMul
    exact rnd_eval_nat 2 6755399441055744 (by norm_num) (by norm_num) (by norm_num)
      (pyRound_eq_of (by norm_num) (by norm_num))
  have hansDefaulta5 : flAdd (7599824371187712 / 2 ^ 47) (6755399441055744 / 2 ^ 50) = 8444249301319680 / 2 ^ 47 := by
    unfold flAdd
    exact rnd_eval_nat 5 8444249301319680 (by norm_num) (by norm_num) (by norm_num)
      (pyRound_eq_of (by norm_num) (by norm_num))
  rw [hansDefaultp1, hansDefaulta1, hansDefaultp2, hansDefaulta2, hansDefaulta3, hansDefaulta4, hansDefaultp5, hansDefaulta5]

theorem ansDefault_overall : overallF SECTIONS ansDefault = 60 := by
  unfold overallF
  rw [ansDefault_fold]
  exact pyRound_eq_of (by norm_num) (by norm_num)

def ansA : List (String × String) := [
  ("Is there clear data ownership defined for critical risk data elements?", "Initial"),
  ("Have policies and procedures been updated to reflect BCBS-239 requirements?", "Initial"),
  ("Is there a steering committee or oversight body assigned responsibility for risk data aggregation?", "Initial"),
  ("Are automated data quality rules implemented for Critical Data Elements (CDEs)?", "Initial"),
  ("Do you measure and monitor data quality SLAs (timeliness, accuracy, completeness)?", "Initial"),
  ("Are reconciliation processes defined and executed for risk figures (daily/monthly)?", "Initial"),
  ("Is there an exception management process that tracks remediation and closure?", "Developing"),
  ("Can you demonstrate end-to-end lineage for each CDE from source to report?", "Initial"),
  ("Is transformation logic documented, versioned, and accessible to auditors?", "Initial"),
  ("Can you trace aggregated risk numbers back to source systems and transformations?", "Initial"),
  ("Is there a maintained catalogue of CDEs with owners and business definitions?", "Initial"),
  ("Are aggregation rules across legal entities defined and validated?", "Initial"),
  ("Do you perform stress or scenario checks to validate risk-data aggregation logic?", "Initial"),
  ("Is there an independent validation function or second-line checks for key controls?", "Initial"),
  ("Are runbooks and incident playbooks defined for data incidents affecting risk reporting?", "Optimised"),
  ("Is an audit trail available for changes to critical data and transformation logic?", "Optimised"),
  ("Are recovery and reconciliation SLAs defined for critical data flows?", "Optimised")]

theorem ansA_qs_secGov : sectionQScores ansA secGov = [20, 20, 20] := by decide

theorem ansA_avg_secGov : sectionAvgF ansA secGov = 5629499534213120 / 2 ^ 48 := by
  unfold sectionAvgF
  rw [ansA_qs_secGov, if_pos (by decide : ([20, 20, 20] : List ℤ) ≠ [])]
  rw [show (List.sum ([20, 20, 20] : List ℤ)) = 60 by decide,
    show (List.length ([20, 20, 20] : List ℤ)) = 3 by decide]
  unfold flDiv
  exact rnd_eval_nat 4 5629499534213120 (by norm_num) (by norm_num) (by norm_num)
      (pyRound_eq_of (by norm_num) (by norm_num))

theorem ansA_score_secGov : sectionScoreF ansA secGov = 20 := by
  unfold sectionScoreF
  rw [ansA_avg_secGov]
  exact pyRound_eq_of (by norm_num) (by norm_num)

theorem ansA_qs_secDQ : sectionQScores ansA secDQ = [20, 20, 20, 40] := by decide

theorem ansA_avg_secDQ : sectionAvgF ansA secDQ = 7036874417766400 / 2 ^ 48 := by
  unfold sectionAvgF
  rw [ansA_qs_secDQ, if_pos (by decide : ([20, 20, 20, 40] : List ℤ) ≠ [])]
  rw [show (List.sum ([20, 20, 20, 40] : List ℤ)) = 100 by decide,
    show (List.length ([20, 20, 20, 40] : List ℤ)) = 4 by decide]
  unfold flDiv
  exact rnd_eval_nat 4 7036874417766400 (by norm_num) (by norm_num) (by norm_num)
      (pyRound_eq_of (by norm_num) (by norm_num))

theorem ansA_score_secDQ : sectionScoreF ansA secDQ = 25 := by
  unfold sectionScoreF
  rw [ansA_avg_secDQ]
  exact pyRound_eq_of (by norm_num) (by norm_num)

theorem ansA_qs_secLin : sectionQScores ansA secLin = [20, 20, 20] := by decide

theorem ansA_avg_secLin : sectionAvgF ansA secLin = 5629499534213120 / 2 ^ 48 := by
  unfold sectionAvgF
  rw [ansA_qs_secLin, if_pos (by decide : ([20, 20, 20] : List ℤ) ≠ [])]
  rw [show (List.sum ([20, 20, 20] : List ℤ)) = 60 by decide,
    show (List.length ([20, 20, 20] : List ℤ)) = 3 by decide]
  unfold flDiv
  exact rnd_eval_nat 4 5629499534213120 (by norm_num) (by norm_num) (by norm_num)
      (pyRound_eq_of (by norm_num) (by norm_num))

theorem ansA_score_secLin : sectionScoreF ansA secLin = 20 := by
  unfold sectionScoreF
  rw [ansA_avg_secLin]
  exact pyRound_eq_of (by norm_num) (by norm_num)

theorem ansA_qs_secBCBS : sectionQScores ansA secBCBS = [20, 20, 20, 20] := by decide

theorem ansA_avg_secBCBS : sectionAvgF ansA secBCBS = 5629499534213120 / 2 ^ 48 := by
  unfold sectionAvgF
  rw [ansA_qs_secBCBS, if_pos (by decide : ([20, 20, 20, 20] : List ℤ) ≠ [])]
  rw [show (List.sum ([20, 20, 20, 20] : List ℤ)) = 80 by decide,
    show (List.length ([20, 20, 20, 20] : List ℤ)) = 4 by decide]
  unfold flDiv
  exact rnd_eval_nat 4 5629499534213120 (by norm_num) (by norm_num) (by norm_num)
      (pyRound_eq_of (by norm_num) (by norm_num))

theorem ansA_score_secBCBS : sectionScoreF ansA secBCBS = 20 := by
  unfold sectionScoreF
  rw [ansA_avg_secBCBS]
  exact pyRound_eq_of (by norm_num) (by norm_num)

theorem ansA_qs_secOps : sectionQScores ansA secOps = [100, 100, 100] := by decide

theorem ansA_avg_secOps : sectionAvgF ansA secOps = 7036874417766400 / 2 ^ 46 := by
  unfold sectionAvgF
  rw [ansA_qs_secOps, if_pos (by decide : ([100, 100, 100] : List ℤ) ≠ [])]
  rw [show (List.sum ([100, 100, 100] : List ℤ)) = 300 by decide,
    show (List.length ([100, 100, 100] : List ℤ)) = 3 by decide]
  unfold flDiv
  exact rnd_eval_nat 6 7036874417766400 (by norm_num) (by norm_num) (by norm_num)
      (pyRound_eq_of (by norm_num) (by norm_num))

theorem ansA_score_secOps : sectionScoreF ansA secOps = 100 := by
  unfold sectionScoreF
  rw [ansA_avg_secOps]
  exact pyRound_eq_of (by norm_num) (by norm_num)

theorem ansA_scores : sectionScoresF SECTIONS ansA = [("Governance & Ownership", 20), ("Data Quality & Controls", 25), ("Lineage & Traceability", 20), ("BCBS-239 Specific Controls", 20), ("Operational Resilience & Auditability", 100)] := by
  simp only [sectionScoresF, SECTIONS, List.map_cons, List.map_nil,
    ansA_score_secGov, ansA_score_secDQ, ansA_score_secLin, ansA_score_secBCBS, ansA_score_secOps]
  rfl

theorem ansA_fold : overallFoldF SECTIONS (sectionScoresF SECTIONS ansA) = 8303511812964352 / 2 ^ 48 := by
  rw [ansA_scores]
  simp only [overallFoldF, List.foldl_cons, List.foldl_nil]
  rw [rndWeight_secGov, rndWeight_secDQ, rndWeight_secLin, rndWeight_secBCBS, rndWeight_secOps]
  have hansAp1 : flMul ((20:ℤ):ℚ) (7205759403792794 / 2 ^ 55) = 4503599627370496 / 2 ^ 50 := by
    unfold flMul
    exact rnd_eval_nat 2 4503599627370496 (by norm_num) (by norm_num) (by norm_num)
      (pyRound_eq_of (by norm_num) (by norm_num))
  have hansAa1 : flAdd (0) (4503599627370496 / 2 ^ 50) = 4503599627370496 / 2 ^ 50 := by
    unfold flAdd
    exact rnd_eval_nat 2 4503599627370496 (by norm_num) (by norm_num) (by norm_num)
      (pyRound_eq_of (by norm_num) (by norm_num))
  have hansAp2 : flMul ((25:ℤ):ℚ) (5404319552844595 / 2 ^ 54) = 8444249301319680 / 2 ^ 50 := by
    unfold flMul
    exact rnd_eval_nat 2 8444249301319680 (by norm_num) (by norm_num) (by norm_num)
      (pyRound_eq_of (by norm_num) (by norm_num))
  have hansAa2 : flAdd (4503599627370496 / 2 ^ 50) (8444249301319680 / 2 ^ 50) = 6473924464345088 / 2 ^ 49 := by
    unfold flAdd
    exact rnd_eval_nat 3 6473924464345088 (by norm_num) (by norm_num) (by norm_num)
      (pyRound_eq_of (by norm_num) (by norm_num))
  have hansAa3 : flAdd (6473924464345088 / 2 ^ 49) (4503599627370496 / 2 ^ 50) = 8725724278030336 / 2 ^ 49 := by
    unfold flAdd
    exact rnd_eval_nat 3 8725724278030336 (by norm_num) (by norm_num) (by norm_num)
      (pyRound_eq_of (by norm_num) (by norm_num))
  have hansAa4 : flAdd (8725724278030336 / 2 ^ 49) (4503599627370496 / 2 ^ 50) = 5488762045857792 / 2 ^ 48 := by
    unfold flAdd
    exact rnd_eval_nat 4 5488762045857792 (by norm_num) (by norm_num) (by norm_num)
      (pyRound_eq_of (by norm_num) (by norm_num))
  have hansAp5 : flMul ((100:ℤ):ℚ) (7205759403792794 / 2 ^ 56) = 5629499534213120 / 2 ^ 49 := by
    unfold flMul
    exact rnd_eval_nat 3 5629499534213120 (by norm_num) (by norm_num) (by norm_num)
      (pyRound_eq_of (by norm_num) (by norm_num))
  have hansAa5 : flAdd (5488762045857792 / 2 ^ 48) (5629499534213120 / 2 ^ 49) = 8303511812964352 / 2 ^ 48 := by
    unfold flAdd
    exact rnd_eval_nat 4 8303511812964352 (by norm_num) (by norm_num) (by norm_num)
      (pyRound_eq_of (by norm_num) (by norm_num))
  rw [hansAp1, hansAa1, hansAp2, hansAa2, hansAa3, hansAa4, hansAp5, hansAa5]

theorem ansA_overall : overallF SECTIONS ansA = 30 := by
  unfold overallF
  rw [ansA_fold]
  rw [show (8303511812964352 / 2 ^ 48 : ℚ) = ((29:ℤ):ℚ) + 1/2 by norm_num]
  rw [pyRound_half_odd (by decide)]
  rfl

def ansB : List (String × String) := [
  ("Is there clear data ownership defined for critical risk data elements?", "Initial"),
  ("Have policies and procedures been updated to reflect BCBS-239 requirements?", "Initial"),
  ("Is there a steering committee or oversight body assigned responsibility for risk data aggregation?", "Developing"),
  ("Are automated data quality rules implemented for Critical Data Elements (CDEs)?", "Developing"),
  ("Do you measure and monitor data quality SLAs (timeliness, accuracy, completeness)?", "Developing"),
  ("Are reconciliation processes defined and executed for risk figures (daily/monthly)?", "Developing"),
  ("Is there an exception management process that tracks remediation and closure?", "Developing"),
  ("Can you demonstrate end-to-end lineage for each CDE from source to report?", "Initial"),
  ("Is transformation logic documented, versioned, and accessible to auditors?", "Initial"),
  ("Can you trace aggregated risk numbers back to source systems and transformations?", "Developing"),
  ("Is there a maintained catalogue of CDEs with owners and business definitions?", "Initial"),
  ("Are aggregation rules across legal entities defined and validated?", "Initial"),
  ("Do you perform stress or scenario checks to validate risk-data aggregation logic?", "Initial"),
  ("Is there an independent validation function or second-line checks for key controls?", "Initial"),
  ("Are runbooks and incident playbooks defined for data incidents affecting risk reporting?", "Initial"),
  ("Is an audit trail available for changes to critical data and transformation logic?", "Initial"),
  ("Are recovery and reconciliation SLAs defined for critical data flows?", "Developing")]

theorem ansB_qs_secGov : sectionQScores ansB secGov = [20, 20, 40] := by decide

theorem ansB_avg_secGov : sectionAvgF ansB secGov = 7505999378950827 / 2 ^ 48 := by
  unfold sectionAvgF
  rw [ansB_qs_secGov, if_pos (by decide : ([20, 20, 40] : List ℤ) ≠ [])]
  rw [show (List.sum ([20, 20, 40] : List ℤ)) = 80 by decide,
    show (List.length ([20, 20, 40] : List ℤ)) = 3 by decide]
  unfold flDiv
  exact rnd_eval_nat 4 7505999378950827 (by norm_num) (by norm_num) (by norm_num)
      (pyRound_eq_of (by norm_num) (by norm_num))

theorem ansB_score_secGov : sectionScoreF ansB secGov = 27 := by
  unfold sectionScoreF
  rw [ansB_avg_secGov]
  exact pyRound_eq_of (by norm_num) (by norm_num)

theorem ansB_qs_secDQ : sectionQScores ansB secDQ = [40, 40, 40, 40] := by decide

theorem ansB_avg_secDQ : sectionAvgF ansB secDQ = 5629499534213120 / 2 ^ 47 := by
  unfold sectionAvgF
  rw [ansB_qs_secDQ, if_pos (by decide : ([40, 40, 40, 40] : List ℤ) ≠ [])]
  rw [show (List.sum ([40, 40, 40, 40] : List ℤ)) = 160 by decide,
    show (List.length ([40, 40, 40, 40] : List ℤ)) = 4 by decide]
  unfold flDiv
  exact rnd_eval_nat 5 5629499534213120 (by norm_num) (by norm_num) (by norm_num)
      (pyRound_eq_of (by norm_num) (by norm_num))

theorem ansB_score_secDQ : sectionScoreF ansB secDQ = 40 := by
  unfold sectionScoreF
  rw [ansB_avg_secDQ]
  exact pyRound_eq_of (by norm_num) (by norm_num)

theorem ansB_qs_secLin : sectionQScores ansB secLin = [20, 20, 40] := by decide

theorem ansB_avg_secLin : sectionAvgF ansB secLin = 7505999378950827 / 2 ^ 48 := by
  unfold sectionAvgF
  rw [ansB_qs_secLin, if_pos (by decide : ([20, 20, 40] : List ℤ) ≠ [])]
  rw [show (List.sum ([20, 20, 40] : List ℤ)) = 80 by decide,
    show (List.length ([20, 20, 40] : List ℤ)) = 3 by decide]
  unfold flDiv
  exact rnd_eval_nat 4 7505999378950827 (by norm_num) (by norm_num) (by norm_num)
      (pyRound_eq_of (by norm_num) (by norm_num))

theorem ansB_score_secLin : sectionScoreF ansB secLin = 27 := by
  unfold sectionScoreF
  rw [ansB_avg_secLin]
  exact pyRound_eq_of (by norm_num) (by norm_num)

theorem ansB_qs_secBCBS : sectionQScores ansB secBCBS = [20, 20, 20, 20] := by decide

theorem ansB_avg_secBCBS : sectionAvgF ansB secBCBS = 5629499534213120 / 2 ^ 48 := by
  unfold sectionAvgF
  rw [ansB_qs_secBCBS, if_pos (by decide : ([20, 20, 20, 20] : List ℤ) ≠ [])]
  rw [show (List.sum ([20, 20, 20, 20] : List ℤ)) = 80 by decide,
    show (List.length ([20, 20, 20, 20] : List ℤ)) = 4 by decide]
  unfold flDiv
  exact rnd_eval_nat 4 5629499534213120 (by norm_num) (by norm_num) (by norm_num)
      (pyRound_eq_of (by norm_num) (by norm_num))

theorem ansB_score_secBCBS : sectionScoreF ansB secBCBS = 20 := by
  unfold sectionScoreF
  rw [ansB_avg_secBCBS]
  exact pyRound_eq_of (by norm_num) (by norm_num)

theorem ansB_qs_secOps : sectionQScores ansB secOps = [20, 20, 40] := by decide

theorem ansB_avg_secOps : sectionAvgF ansB secOps = 7505999378950827 / 2 ^ 48 := by
  unfold sectionAvgF
  rw [ansB_qs_secOps, if_pos (by decide : ([20, 20, 40] : List ℤ) ≠ [])]
  rw [show (List.sum ([20, 20, 40] : List ℤ)) = 80 by decide,
    show (List.length ([20, 20, 40] : List ℤ)) = 3 by decide]
  unfold flDiv
  exact rnd_eval_nat 4 7505999378950827 (by norm_num) (by norm_num) (by norm_num)
      (pyRound_eq_of (by norm_num) (by norm_num))

theorem ansB_score_secOps : sectionScoreF ansB secOps = 27 := by
  unfold sectionScoreF
  rw [ansB_avg_secOps]
  exact pyRound_eq_of (by norm_num) (by norm_num)

theorem ansB_scores : sectionScoresF SECTIONS ansB = [("Governance & Ownership", 27), ("Data Quality & Controls", 40), ("Lineage & Traceability", 27), ("BCBS-239 Specific Controls", 20), ("Operational Resilience & Auditability", 27)] := by
  simp only [sectionScoresF, SECTIONS, List.map_cons, List.map_nil,
    ansB_score_secGov, ansB_score_secDQ, ansB_score_secLin, ansB_score_secBCBS, ansB_score_secOps]
  rfl

theorem ansB_fold : overallFoldF SECTIONS (sectionScoresF SECTIONS ansB) = 8303511812964351 / 2 ^ 48 := by
  rw [ansB_scores]
  simp only [overallFoldF, List.foldl_cons, List.foldl_nil]
  rw [rndWeight_secGov, rndWeight_secDQ, rndWeight_secLin, rndWeight_secBCBS, rndWeight_secOps]
  have hansBp1 : flMul ((27:ℤ):ℚ) (7205759403792794 / 2 ^ 55) = 6079859496950170 / 2 ^ 50 := by
    unfold flMul
    exact rnd_eval_nat 2 6079859496950170 (by norm_num) (by norm_num) (by norm_num)
      (pyRound_eq_of (by norm_num) (by norm_num))
  have hansBa1 : flAdd (0) (6079859496950170 / 2 ^ 50) = 6079859496950170 / 2 ^ 50 := by
    unfold flAdd
    exact rnd_eval_nat 2 6079859496950170 (by norm_num) (by norm_num) (by norm_num)
      (pyRound_eq_of (by norm_num) (by norm_num))
  have hansBp2 : flMul ((40:ℤ):ℚ) (5404319552844595 / 2 ^ 54) = 6755399441055744 / 2 ^ 49 := by
    unfold flMul
    exact rnd_eval_nat 3 6755399441055744 (by norm_num) (by norm_num) (by norm_num)
      (pyRound_eq_of (by norm_num) (by norm_num))
  have hansBa2 : flAdd (6079859496950170 / 2 ^ 50) (6755399441055744 / 2 ^ 49) = 4897664594765414 / 2 ^ 48 := by
    unfold flAdd
    exact rnd_eval_nat 4 4897664594765414 (by norm_num) (by norm_num) (by norm_num)
      (by
      rw [show ((6079859496950170 / 2 ^ 50) + (6755399441055744 / 2 ^ 49)) * 2 ^ (52 - 4) = ((4897664594765414:ℤ):ℚ) + 1/2 by norm_num]
      exact pyRound_half_even (by decide))
  have hansBa3 : flAdd (4897664594765414 / 2 ^ 48) (6079859496950170 / 2 ^ 50) = 6417629469002956 / 2 ^ 48 := by
    unfold flAdd
    exact rnd_eval_nat 4 6417629469002956 (by norm_num) (by norm_num) (by norm_num)
      (by
      rw [show ((4897664594765414 / 2 ^ 48) + (6079859496950170 / 2 ^ 50)) * 2 ^ (52 - 4) = ((6417629469002956:ℤ):ℚ) + 1/2 by norm_num]
      exact pyRound_half_even (by decide))
  have hansBp4 : flMul ((20:ℤ):ℚ) (7205759403792794 / 2 ^ 55) = 4503599627370496 / 2 ^ 50 := by
    unfold flMul
    exact rnd_eval_nat 2 4503599627370496 (by norm_num) (by norm_num) (by norm_num)
      (pyRound_eq_of (by norm_num) (by norm_num))
  have hansBa4 : flAdd (6417629469002956 / 2 ^ 48) (4503599627370496 / 2 ^ 50) = 7543529375845580 / 2 ^ 48 := by
    unfold flAdd
    exact rnd_eval_nat 4 7543529375845580 (by norm_num) (by norm_num) (by norm_num)
      (pyRound_eq_of (by norm_num) (by norm_num))
  have hansBp5 : flMul ((27:ℤ):ℚ) (7205759403792794 / 2 ^ 56) = 6079859496950170 / 2 ^ 51 := by
    unfold flMul
    exact rnd_eval_nat 1 6079859496950170 (by norm_num) (by norm_num) (by norm_num)
      (pyRound_eq_of (by norm_num) (by norm_num))
  have hansBa5 : flAdd (7543529375845580 / 2 ^ 48) (6079859496950170 / 2 ^ 51) = 8303511812964351 / 2 ^ 48 := by
    unfold flAdd
    exact rnd_eval_nat 4 8303511812964351 (by norm_num) (by norm_num) (by norm_num)
      (pyRound_eq_of (by norm_num) (by norm_num))
  rw [hansBp1, hansBa1, hansBp2, hansBa2, hansBa3, hansBp4, hansBa4, hansBp5, hansBa5]

theorem ansB_overall : overallF SECTIONS ansB = 29 := by
  unfold overallF
  rw [ansB_fold]
  exact pyRound_eq_of (by norm_num) (by norm_num)

/-! Universal facts about the scoring arithmetic. -/

theorem scoreGet_cases (a : String) : ∃ k : ℤ, scoreGet a = 20 * k ∧ 0 ≤ k ∧ k ≤ 5 := by
  unfold scoreGet SCORE_MAP
  simp only [List.lookup]
  repeat' split
  all_goals simp only [Option.getD]
  · exact ⟨1, by norm_num⟩
  · exact ⟨2, by norm_num⟩
  · exact ⟨3, by norm_num⟩
  · exact ⟨4, by norm_num⟩
  · exact ⟨5, by norm_num⟩
  · exact ⟨0, by norm_num⟩

theorem sum_mul20 (l : List ℤ) (h : ∀ x ∈ l, ∃ k : ℤ, x = 20 * k ∧ 0 ≤ k ∧ k ≤ 5) :
    ∃ K : ℤ, l.sum = 20 * K ∧ 0 ≤ K ∧ K ≤ 5 * l.length := by
  induction l with
  | nil => exact ⟨0, by simp⟩
  | cons x rest ih =>
    obtain ⟨k, hk, h0, h5⟩ := h x (List.mem_cons_self x rest)
    obtain ⟨K, hK, hK0, hK5⟩ := ih (fun y hy => h y (List.mem_cons_of_mem x hy))
    refine ⟨k + K, ?_, by omega, ?_⟩
    · rw [List.sum_cons, hk, hK]
      ring
    · rw [List.length_cons]
      push_cast
      omega

theorem sectionQScores_mul20 (answers : List (String × String)) (sec : SectionDef) :
    ∃ K : ℤ, (sectionQScores answers sec).sum = 20 * K ∧ 0 ≤ K ∧
      K ≤ 5 * (sectionQScores answers sec).length := by
  apply sum_mul20
  intro x hx
  rw [sectionQScores, List.mem_map] at hx
  obtain ⟨q, _, rfl⟩ := hx
  exact scoreGet_cases _

theorem pyRound_le_of {q : ℚ} {b : ℤ} (h : q ≤ b) : pyRound q ≤ b := by
  have h1 := pyRound_le q
  have h2 : (pyRound q : ℚ) < (b:ℚ) + 1 := by linarith
  have h3 : pyRound q < b + 1 := by exact_mod_cast h2
  omega

theorem le_pyRound_of {q : ℚ} {b : ℤ} (h : (b:ℚ) ≤ q) : b ≤ pyRound q := by
  have h1 := le_pyRound q
  have h2 : (b:ℚ) - 1 < (pyRound q : ℚ) := by linarith
  have h3 : b - 1 < pyRound q := by exact_mod_cast h2
  omega

/-- On a section with three or four questions, the float section score of
the source equals the exact rounded arithmetic mean: every answer scores a
multiple of twenty, so the exact mean has denominator dividing the question
count, ties cannot arise, and the single float division cannot move the
mean across a rounding boundary. -/
theorem sectionScoreF_eq_spec (answers : List (String × String)) (sec : SectionDef)
    (hlen : sec.questions.length = 3 ∨ sec.questions.length = 4) :
    sectionScoreF answers sec = specSectionScore answers sec := by
  obtain ⟨K, hsum, hK0, hK5⟩ := sectionQScores_mul20 answers sec
  have hlq : (sectionQScores answers sec).length = sec.questions.length := by
    rw [sectionQScores, List.length_map]
  have hnil : sectionQScores answers sec ≠ [] := by
    intro hc
    rw [hc] at hlq
    simp at hlq
    omega
  have hlpos : (0:ℚ) < ((sec.questions.length : ℕ) : ℚ) := by
    rcases hlen with h | h <;> rw [h] <;> norm_num
  set q : ℚ := specSectionAvg answers sec with hq
  have hqval : q = ((20 * K : ℤ) : ℚ) / ((sec.questions.length : ℕ) : ℚ) := by
    rw [hq, specSectionAvg, hsum]
  have hK0q : (0:ℚ) ≤ (K:ℚ) := by exact_mod_cast hK0
  have hK5q : (K:ℚ) ≤ 5 * ((sec.questions.length : ℕ) : ℚ) := by
    rw [hlq] at hK5
    exact_mod_cast hK5
  have hq0 : 0 ≤ q := by
    rw [hqval]
    apply div_nonneg _ (le_of_lt hlpos)
    push_cast
    linarith
  have hq100 : q ≤ 100 := by
    rw [hqval, div_le_iff₀ hlpos]
    push_cast
    nlinarith
  -- the float average is the rounding of the exact average
  have havg : sectionAvgF answers sec = rnd q := by
    rw [sectionAvgF, if_pos hnil, flDiv, hq, specSectionAvg, hlq]
  -- the exact average times three is an integer
  have h3q : ∃ z : ℤ, (3:ℚ) * q = z := by
    rcases hlen with h | h
    · refine ⟨20 * K, ?_⟩
      rw [hqval, h]
      push_cast
      field_simp
    · refine ⟨15 * K, ?_⟩
      rw [hqval, h]
      push_cast
      field_simp
      ring
  obtain ⟨z, hz⟩ := h3q
  have hdist := dist_pyRound_of_mul_three hz
  have hclose := rnd_close hq0 (by linarith : q ≤ 256)
  rw [sectionScoreF, havg, specSectionScore, ← hq]
  apply pyRound_eq_of
  · rw [abs_le] at hdist hclose
    push_cast
    linarith [hdist.1, hdist.2, hclose.1, hclose.2]
  · rw [abs_le] at hdist hclose
    push_cast
    linarith [hdist.1, hdist.2, hclose.1, hclose.2]

/-- Bounds of the spec section score. -/
theorem specSectionScore_bounds (answers : List (String × String)) (sec : SectionDef)
    (hlen : sec.questions.length = 3 ∨ sec.questions.length = 4) :
    0 ≤ specSectionScore answers sec ∧ specSectionScore answers sec ≤ 100 := by
  obtain ⟨K, hsum, hK0, hK5⟩ := sectionQScores_mul20 answers sec
  have hlq : (sectionQScores answers sec).length = sec.questions.length := by
    rw [sectionQScores, List.length_map]
  have hlpos : (0:ℚ) < ((sec.questions.length : ℕ) : ℚ) := by
    rcases hlen with h | h <;> rw [h] <;> norm_num
  have hK0q : (0:ℚ) ≤ (K:ℚ) := by exact_mod_cast hK0
  have hK5q : (K:ℚ) ≤ 5 * ((sec.questions.length : ℕ) : ℚ) := by
    rw [hlq] at hK5
    exact_mod_cast hK5
  have hq0 : (0:ℚ) ≤ specSectionAvg answers sec := by
    rw [specSectionAvg, hsum]
    apply div_nonneg _ (le_of_lt hlpos)
    push_cast
    linarith
  have hq100 : specSectionAvg answers sec ≤ 100 := by
    rw [specSectionAvg, hsum, div_le_iff₀ hlpos]
    push_cast
    nlinarith
  exact ⟨le_pyRound_of (by exact_mod_cast hq0), pyRound_le_of (by exact_mod_cast hq100)⟩

set_option maxHeartbeats 1000000 in
/-- The float weighted sum of the five section scores stays within 1/2^40
of the exact weighted sum: each stored weight is within 1/2^55 of its
decimal, and each of the ten roundings moves the value by at most 1/2^45. -/
theorem overallFold_close (s1 s2 s3 s4 s5 : ℤ)
    (h1 : 0 ≤ s1 ∧ s1 ≤ 100) (h2 : 0 ≤ s2 ∧ s2 ≤ 100) (h3 : 0 ≤ s3 ∧ s3 ≤ 100)
    (h4 : 0 ≤ s4 ∧ s4 ≤ 100) (h5 : 0 ≤ s5 ∧ s5 ≤ 100) :
    |overallFoldF SECTIONS [("Governance & Ownership", s1), ("Data Quality & Controls", s2),
        ("Lineage & Traceability", s3), ("BCBS-239 Specific Controls", s4),
        ("Operational Resilience & Auditability", s5)] -
      ((s1:ℚ) * 0.20 + (s2:ℚ) * 0.30 + (s3:ℚ) * 0.20 + (s4:ℚ) * 0.20 + (s5:ℚ) * 0.10)|
      ≤ 1/2^40 := by
  have c1 : (0:ℚ) ≤ (s1:ℚ) ∧ (s1:ℚ) ≤ 100 :=
    ⟨by exact_mod_cast h1.1, by exact_mod_cast h1.2⟩
  have c2 : (0:ℚ) ≤ (s2:ℚ) ∧ (s2:ℚ) ≤ 100 :=
    ⟨by exact_mod_cast h2.1, by exact_mod_cast h2.2⟩
  have c3 : (0:ℚ) ≤ (s3:ℚ) ∧ (s3:ℚ) ≤ 100 :=
    ⟨by exact_mod_cast h3.1, by exact_mod_cast h3.2⟩
  have c4 : (0:ℚ) ≤ (s4:ℚ) ∧ (s4:ℚ) ≤ 100 :=
    ⟨by exact_mod_cast h4.1, by exact_mod_cast h4.2⟩
  have c5 : (0:ℚ) ≤ (s5:ℚ) ∧ (s5:ℚ) ≤ 100 :=
    ⟨by exact_mod_cast h5.1, by exact_mod_cast h5.2⟩
  simp only [overallFoldF, List.foldl_cons, List.foldl_nil]
  rw [rndWeight_secGov, rndWeight_secDQ, rndWeight_secLin, rndWeight_secBCBS, rndWeight_secOps]
  simp only [flMul, flAdd]
  -- per-product error bounds against the exact decimal weights
  have prod_close : ∀ (s : ℤ) (W w : ℚ), (0:ℚ) ≤ (s:ℚ) → (s:ℚ) ≤ 100 →
      0 ≤ W → W ≤ 1 → |W - w| ≤ 1/2^55 →
      |rnd ((s:ℚ) * W) - (s:ℚ) * w| ≤ 1/2^44 ∧ 0 ≤ rnd ((s:ℚ) * W) := by
    intro s W w hs0 hs100 hW0 hW1 hWw
    have hprod0 : (0:ℚ) ≤ (s:ℚ) * W := mul_nonneg hs0 hW0
    have hprod256 : (s:ℚ) * W ≤ 256 := by nlinarith
    have hcl := abs_le.mp (rnd_close hprod0 hprod256)
    have hdiff : |(s:ℚ) * W - (s:ℚ) * w| ≤ 100/2^55 := by
      rw [← mul_sub, abs_mul, abs_of_nonneg hs0]
      have habs := abs_le.mp hWw
      have : |W - w| ≤ 1/2^55 := hWw
      calc (s:ℚ) * |W - w| ≤ 100 * (1/2^55) := by
            apply mul_le_mul hs100 this (abs_nonneg _) (by norm_num)
        _ = 100/2^55 := by ring
    have hd := abs_le.mp hdiff
    constructor
    · rw [abs_le]
      constructor <;> linarith [hcl.1, hcl.2, hd.1, hd.2]
    · exact rnd_nonneg hprod0
  obtain ⟨e1, g1⟩ := prod_close s1 (7205759403792794 / 2 ^ 55) 0.20 c1.1 c1.2
    (by norm_num) (by norm_num) (by rw [abs_le]; exact ⟨by norm_num, by norm_num⟩)
  obtain ⟨e2, g2⟩ := prod_close s2 (5404319552844595 / 2 ^ 54) 0.30 c2.1 c2.2
    (by norm_num) (by norm_num) (by rw [abs_le]; exact ⟨by norm_num, by norm_num⟩)
  obtain ⟨e3, g3⟩ := prod_close s3 (7205759403792794 / 2 ^ 55) 0.20 c3.1 c3.2
    (by norm_num) (by norm_num) (by rw [abs_le]; exact ⟨by norm_num, by norm_num⟩)
  obtain ⟨e4, g4⟩ := prod_close s4 (7205759403792794 / 2 ^ 55) 0.20 c4.1 c4.2
    (by norm_num) (by norm_num) (by rw [abs_le]; exact ⟨by norm_num, by norm_num⟩)
  obtain ⟨e5, g5⟩ := prod_close s5 (7205759403792794 / 2 ^ 56) 0.10 c5.1 c5.2
    (by norm_num) (by norm_num) (by rw [abs_le]; exact ⟨by norm_num, by norm_num⟩)
  set p1 := rnd ((s1:ℚ) * (7205759403792794 / 2 ^ 55))
  set p2 := rnd ((s2:ℚ) * (5404319552844595 / 2 ^ 54))
  set p3 := rnd ((s3:ℚ) * (7205759403792794 / 2 ^ 55))
  set p4 := rnd ((s4:ℚ) * (7205759403792794 / 2 ^ 55))
  set p5 := rnd ((s5:ℚ) * (7205759403792794 / 2 ^ 56))
  have e1' := abs_le.mp e1
  have e2' := abs_le.mp e2
  have e3' := abs_le.mp e3
  have e4' := abs_le.mp e4
  have e5' := abs_le.mp e5
  -- accumulate the additions
  have b1 : |rnd (0 + p1) - p1| ≤ 1/2^45 := by
    have h0 : (0:ℚ) ≤ 0 + p1 := by linarith
    have h256 : (0:ℚ) + p1 ≤ 256 := by linarith [e1'.2, c1.2]
    have := rnd_close h0 h256
    simpa using this
  set a1 := rnd (0 + p1)
  have b1' := abs_le.mp b1
  have ha1 : 0 ≤ a1 := rnd_nonneg (by linarith)
  have b2 : |rnd (a1 + p2) - (a1 + p2)| ≤ 1/2^45 := by
    apply rnd_close (by linarith)
    linarith [e1'.2, e2'.2, c1.2, c2.2, b1'.2]
  set a2 := rnd (a1 + p2)
  have b2' := abs_le.mp b2
  have ha2 : 0 ≤ a2 := rnd_nonneg (by linarith)
  have b3 : |rnd (a2 + p3) - (a2 + p3)| ≤ 1/2^45 := by
    apply rnd_close (by linarith)
    linarith [e1'.2, e2'.2, e3'.2, c1.2, c2.2, c3.2, b1'.2, b2'.2]
  set a3 := rnd (a2 + p3)
  have b3' := abs_le.mp b3
  have ha3 : 0 ≤ a3 := rnd_nonneg (by linarith)
  have b4 : |rnd (a3 + p4) - (a3 + p4)| ≤ 1/2^45 := by
    apply rnd_close (by linarith)
    linarith [e1'.2, e2'.2, e3'.2, e4'.2, c1.2, c2.2, c3.2, c4.2, b1'.2, b2'.2, b3'.2]
  set a4 := rnd (a3 + p4)
  have b4' := abs_le.mp b4
  have ha4 : 0 ≤ a4 := rnd_nonneg (by linarith)
  have b5 : |rnd (a4 + p5) - (a4 + p5)| ≤ 1/2^45 := by
    apply rnd_close (by linarith)
    linarith [e1'.2, e2'.2, e3'.2, e4'.2, e5'.2, c1.2, c2.2, c3.2, c4.2, c5.2,
      b1'.2, b2'.2, b3'.2, b4'.2]
  set a5 := rnd (a4 + p5)
  have b5' := abs_le.mp b5
  rw [abs_le]
  constructor <;>
    linarith [e1'.1, e1'.2, e2'.1, e2'.2, e3'.1, e3'.2, e4'.1, e4'.2, e5'.1, e5'.2,
      b1'.1, b1'.2, b2'.1, b2'.2, b3'.1, b3'.2, b4'.1, b4'.2, b5'.1, b5'.2]

theorem sectionScoresF_SECTIONS (answers : List (String × String)) :
    sectionScoresF SECTIONS answers =
      [("Governance & Ownership", specSectionScore answers secGov),
       ("Data Quality & Controls", specSectionScore answers secDQ),
       ("Lineage & Traceability", specSectionScore answers secLin),
       ("BCBS-239 Specific Controls", specSectionScore answers secBCBS),
       ("Operational Resilience & Auditability", specSectionScore answers secOps)] := by
  simp only [sectionScoresF, SECTIONS, List.map_cons, List.map_nil,
    sectionScoreF_eq_spec answers secGov (Or.inl (by decide)),
    sectionScoreF_eq_spec answers secDQ (Or.inr (by decide)),
    sectionScoreF_eq_spec answers secLin (Or.inl (by decide)),
    sectionScoreF_eq_spec answers secBCBS (Or.inr (by decide)),
    sectionScoreF_eq_spec answers secOps (Or.inl (by decide))]
  rfl

theorem specExactOverall_SECTIONS (answers : List (String × String)) :
    specExactOverall SECTIONS answers =
      ((specSectionScore answers secGov : ℤ) : ℚ) * 0.20 +
      ((specSectionScore answers secDQ : ℤ) : ℚ) * 0.30 +
      ((specSectionScore answers secLin : ℤ) : ℚ) * 0.20 +
      ((specSectionScore answers secBCBS : ℤ) : ℚ) * 0.20 +
      ((specSectionScore answers secOps : ℤ) : ℚ) * 0.10 := by
  simp only [specExactOverall, SECTIONS, List.map_cons, List.map_nil, List.sum_cons,
    List.sum_nil]
  rw [show secGov.weight = (0.20:ℚ) from rfl, show secDQ.weight = (0.30:ℚ) from rfl,
    show secLin.weight = (0.20:ℚ) from rfl, show secBCBS.weight = (0.20:ℚ) from rfl,
    show secOps.weight = (0.10:ℚ) from rfl]
  ring

set_option maxHeartbeats 1000000 in
/-- Whenever the exact weighted sum of the (spec) section scores is not an
exact half-integer, the float overall score of the source equals the
rounded exact weighted sum. -/
theorem overallF_eq_spec (answers : List (String × String))
    (hnh : NotHalf (specExactOverall SECTIONS answers)) :
    overallF SECTIONS answers = specOverall SECTIONS answers := by
  have hb1 := specSectionScore_bounds answers secGov (Or.inl (by decide))
  have hb2 := specSectionScore_bounds answers secDQ (Or.inr (by decide))
  have hb3 := specSectionScore_bounds answers secLin (Or.inl (by decide))
  have hb4 := specSectionScore_bounds answers secBCBS (Or.inr (by decide))
  have hb5 := specSectionScore_bounds answers secOps (Or.inl (by decide))
  have hclose := overallFold_close (specSectionScore answers secGov)
    (specSectionScore answers secDQ) (specSectionScore answers secLin)
    (specSectionScore answers secBCBS) (specSectionScore answers secOps)
    hb1 hb2 hb3 hb4 hb5
  rw [overallF, sectionScoresF_SECTIONS]
  rw [← specExactOverall_SECTIONS] at hclose
  have hz : (10:ℚ) * specExactOverall SECTIONS answers =
      ((2 * specSectionScore answers secGov + 3 * specSectionScore answers secDQ +
        2 * specSectionScore answers secLin + 2 * specSectionScore answers secBCBS +
        specSectionScore answers secOps : ℤ) : ℚ) := by
    rw [specExactOverall_SECTIONS]
    push_cast
    ring
  have hdist := dist_pyRound_of_mul_ten hz hnh
  have hcl := abs_le.mp hclose
  have hd := abs_le.mp hdist
  rw [specOverall]
  apply pyRound_eq_of
  · push_cast
    linarith [hcl.1, hcl.2, hd.1, hd.2]
  · push_cast
    linarith [hcl.1, hcl.2, hd.1, hd.2]

/-! Infrastructure for the monotonicity claim. -/

theorem dictSet_lookup_self (l : List (String × String)) (k v : String) :
    (dictSet l k v).lookup k = some v := by
  induction l with
  | nil => simp [dictSet, List.lookup]
  | cons p rest ih =>
    by_cases h : p.1 = k
    · simp [dictSet, h, List.lookup]
    · simp only [dictSet]
      rw [if_neg (by exact fun hc => h (by rw [hc]))]
      rw [show ((p.1, p.2) : String × String) = p from rfl]
      simp only [List.lookup]
      rw [show (k == p.1) = false from by
        simp only [beq_eq_false_iff_ne]
        exact fun hc => h hc.symm]
      exact ih

theorem dictSet_lookup_ne (l : List (String × String)) (k v t : String) (h : t ≠ k) :
    (dictSet l k v).lookup t = l.lookup t := by
  induction l with
  | nil =>
    simp only [dictSet, List.lookup]
    rw [show (t == k) = false from by simp [h]]
  | cons p rest ih =>
    by_cases hp : p.1 = k
    · simp only [dictSet, if_pos hp]
      simp only [List.lookup]
      rw [show (t == k) = false from by simp [h], show (t == p.1) = false from by simp [hp ▸ h]]
    · simp only [dictSet, if_neg hp]
      rw [show ((p.1, p.2) : String × String) = p from rfl]
      simp only [List.lookup]
      cases hb : (t == p.1)
      · exact ih
      · rfl

theorem levels_score_mono : ∀ a ∈ LEVELS, ∀ b ∈ LEVELS,
    LEVELS.indexOf a ≤ LEVELS.indexOf b → scoreGet a ≤ scoreGet b := by decide

theorem scoreGet_nonneg (a : String) : 0 ≤ scoreGet a := by
  obtain ⟨k, hk, h0, _⟩ := scoreGet_cases a
  omega

theorem sectionScoreF_nonneg (answers : List (String × String)) (sec : SectionDef) :
    0 ≤ sectionScoreF answers sec := by
  rw [sectionScoreF]
  apply pyRound_nonneg
  rw [sectionAvgF]
  split_ifs with h
  · exact rnd_nonneg (div_nonneg (by
      obtain ⟨K, hs, h0, _⟩ := sectionQScores_mul20 answers sec
      rw [hs]
      push_cast
      have hKq : (0:ℚ) ≤ (K:ℚ) := by exact_mod_cast h0
      linarith) (by positivity))
  · exact le_refl 0

theorem sectionScoreF_mono (ans ans' : List (String × String))
    (h : ∀ t : String, scoreGet (ansOf ans t) ≤ scoreGet (ansOf ans' t))
    (sec : SectionDef) : sectionScoreF ans sec ≤ sectionScoreF ans' sec := by
  have hsum : (sectionQScores ans sec).sum ≤ (sectionQScores ans' sec).sum := by
    rw [sectionQScores, sectionQScores]
    exact List.sum_le_sum (fun q _ => h q.text)
  have hsum0 : 0 ≤ (sectionQScores ans sec).sum := by
    obtain ⟨K, hs, h0, _⟩ := sectionQScores_mul20 ans sec
    omega
  have hlen : (sectionQScores ans sec).length = (sectionQScores ans' sec).length := by
    rw [sectionQScores, sectionQScores, List.length_map, List.length_map]
  rw [sectionScoreF, sectionScoreF]
  apply pyRound_mono
  rw [sectionAvgF, sectionAvgF]
  rcases eq_or_ne (sectionQScores ans sec) [] with hnil | hnil
  · have hnil' : sectionQScores ans' sec = [] := by
      have := hlen
      rw [hnil] at this
      exact List.eq_nil_of_length_eq_zero this.symm
    rw [hnil, hnil']
  · have hnil' : sectionQScores ans' sec ≠ [] := by
      intro hc
      rw [hc] at hlen
      exact hnil (List.eq_nil_of_length_eq_zero hlen)
    rw [if_pos hnil, if_pos hnil', ← hlen, flDiv, flDiv]
    have hlpos : (0:ℚ) < (((sectionQScores ans sec).length : ℕ) : ℚ) := by
      have : 0 < (sectionQScores ans sec).length := List.length_pos.mpr hnil
      exact_mod_cast this
    apply rnd_mono
    · apply div_nonneg _ (le_of_lt hlpos)
      exact_mod_cast hsum0
    · apply div_le_div_of_nonneg_right _ (le_of_lt hlpos)
      exact_mod_cast hsum

theorem weightOf_nonneg (name : String) : 0 ≤ weightOf SECTIONS name := by
  rw [weightOf]
  cases hf : SECTIONS.find? (fun sec => sec.name == name) with
  | none => simp
  | some sec =>
    have hmem : sec ∈ SECTIONS := List.mem_of_find?_eq_some hf
    have hw : 0 ≤ sec.weight := by
      simp only [SECTIONS, secGov, secDQ, secLin, secBCBS, secOps, List.mem_cons,
        List.mem_singleton] at hmem
      rcases hmem with rfl | rfl | rfl | rfl | rfl | h
      · norm_num
      · norm_num
      · norm_num
      · norm_num
      · norm_num
      · simp at h
    simpa using hw

theorem foldW_mono (secs : List SectionDef) (ans ans' : List (String × String))
    (hpt : ∀ sec ∈ secs, sectionScoreF ans sec ≤ sectionScoreF ans' sec) :
    ∀ (acc acc' : ℚ), 0 ≤ acc → acc ≤ acc' →
    (secs.map (fun sec => (sec.name, sectionScoreF ans sec))).foldl
      (fun acc p => flAdd acc (flMul ((p.2 : ℤ) : ℚ) (rnd (weightOf SECTIONS p.1)))) acc ≤
    (secs.map (fun sec => (sec.name, sectionScoreF ans' sec))).foldl
      (fun acc p => flAdd acc (flMul ((p.2 : ℤ) : ℚ) (rnd (weightOf SECTIONS p.1)))) acc' := by
  induction secs with
  | nil =>
    intro acc acc' _ hle
    simpa using hle
  | cons sec rest ih =>
    intro acc acc' hacc0 hle
    simp only [List.map_cons, List.foldl_cons]
    have hW : 0 ≤ rnd (weightOf SECTIONS sec.name) := rnd_nonneg (weightOf_nonneg _)
    have hs0 : (0:ℚ) ≤ ((sectionScoreF ans sec : ℤ) : ℚ) := by
      exact_mod_cast sectionScoreF_nonneg ans sec
    have hsle : ((sectionScoreF ans sec : ℤ) : ℚ) ≤ ((sectionScoreF ans' sec : ℤ) : ℚ) := by
      exact_mod_cast hpt sec (List.mem_cons_self sec rest)
    have hm : flMul ((sectionScoreF ans sec : ℤ) : ℚ) (rnd (weightOf SECTIONS sec.name)) ≤
        flMul ((sectionScoreF ans' sec : ℤ) : ℚ) (rnd (weightOf SECTIONS sec.name)) := by
      rw [flMul, flMul]
      exact rnd_mono (mul_nonneg hs0 hW) (mul_le_mul_of_nonneg_right hsle hW)
    have hm0 : 0 ≤ flMul ((sectionScoreF ans sec : ℤ) : ℚ) (rnd (weightOf SECTIONS sec.name)) := by
      rw [flMul]
      exact rnd_nonneg (mul_nonneg hs0 hW)
    apply ih (fun s hs => hpt s (List.mem_cons_of_mem sec hs))
    · rw [flAdd]
      exact rnd_nonneg (by linarith)
    · rw [flAdd, flAdd]
      exact rnd_mono (by linarith) (by linarith)

/-! The classifier threshold table of the spec (highest first, inclusive
lower bounds). -/

def TIER_TABLE : List (ℤ × String) :=
  [(90, "Optimised"), (75, "Managed"), (60, "Defined"), (40, "Developing"), (0, "Initial")]

/-- First matching tier of the table, scanned highest first. -/
def classifySpec (score : ℤ) : String :=
  ((TIER_TABLE.find? (fun p => p.1 ≤ score)).map Prod.snd).getD "Initial"

/-- Lower threshold of a tier label. -/
def tierThreshold (label : String) : ℤ :=
  if label = "Optimised" then 90
  else if label = "Managed" then 75
  else if label = "Defined" then 60
  else if label = "Developing" then 40
  else 0

/-- C2: for every integer score in the range 0 to 100, get_readiness_level
returns exactly the tier selected by the threshold table evaluated highest
first with inclusive lower bounds, the lower threshold of the returned
tier does not exceed the score, and the returned label is always one of
the five tiers (no input in range is an error). -/
theorem claim2_classifier_partition (score : ℤ) (h0 : 0 ≤ score) (h100 : score ≤ 100) :
    (get_readiness_level score).1 = classifySpec score ∧
    tierThreshold (get_readiness_level score).1 ≤ score ∧
    (get_readiness_level score).1 ∈ TIER_TABLE.map Prod.snd := by
  interval_cases score <;> decide

/-- Witness for C2 at the concrete score 72 (which classifies as Defined). -/
theorem claim2_classifier_partition_witness :
    ((0:ℤ) ≤ 72 ∧ (72:ℤ) ≤ 100) ∧
    ((get_readiness_level 72).1 = classifySpec 72 ∧
     tierThreshold (get_readiness_level 72).1 ≤ 72 ∧
     (get_readiness_level 72).1 ∈ TIER_TABLE.map Prod.snd) :=
  ⟨⟨by decide, by decide⟩, claim2_classifier_partition 72 (by decide) (by decide)⟩

theorem gen_rec_aux (l : List (String × ℤ)) (acc : List Recommendation) :
    l.foldl (fun recommendations p =>
      if p.2 < 70 then
        recommendations ++ [{ sectionName := p.1, score := p.2,
                              priority := if p.2 < 50 then "High" else "Medium",
                              actions := recActions p.1 }]
      else recommendations) acc =
    acc ++ l.filterMap (fun p =>
      if p.2 < 70 then
        some { sectionName := p.1, score := p.2,
               priority := if p.2 < 50 then "High" else "Medium",
               actions := recActions p.1 }
      else none) := by
  induction l generalizing acc with
  | nil => simp
  | cons p rest ih =>
    simp only [List.foldl_cons, List.filterMap_cons]
    by_cases h : p.2 < 70
    · rw [if_pos h, if_pos h, ih]
      simp
    · rw [if_neg h, if_neg h, ih]

/-- C3: generate_recommendations emits a record for a section exactly when
its score is strictly below 70, with priority High exactly when the score
is strictly below 50 and Medium otherwise, and with the action list looked
up from the fixed five-entry table; the function is total, and a name
outside the table (such as the sixth section of the extended catalogue of
src/app.py) receives an empty action list rather than an error.  A section
scoring exactly 70 produces nothing. -/
theorem claim3_recommendations :
    (∀ section_scores : List (String × ℤ),
      generate_recommendations section_scores = section_scores.filterMap (fun p =>
        if p.2 < 70 then
          some { sectionName := p.1, score := p.2,
                 priority := if p.2 < 50 then "High" else "Medium",
                 actions := recActions p.1 }
        else none)) ∧
    generate_recommendations [("Data Timeliness, SLA & Feed Controls", 70)] = [] ∧
    generate_recommendations [("Data Timeliness, SLA & Feed Controls", 69)] =
      [{ sectionName := "Data Timeliness, SLA & Feed Controls", score := 69,
         priority := "Medium", actions := [] }] ∧
    recActions "Data Timeliness, SLA & Feed Controls" = [] ∧
    "Data Timeliness, SLA & Feed Controls" ∈ SECTIONS_v2.map SectionDef.name ∧
    "Data Timeliness, SLA & Feed Controls" ∉ SECTIONS.map SectionDef.name := by
  refine ⟨?_, by decide, by decide, by decide, by decide, by decide⟩
  intro section_scores
  rw [generate_recommendations, gen_rec_aux]
  simp

/-! Monotonicity: raising one answer never lowers its section score nor the
overall score. -/

theorem FullAnswers_dictSet (answers : List (String × String)) (q0 b : String)
    (h : FullAnswers SECTIONS answers) : FullAnswers SECTIONS (dictSet answers q0 b) := by
  intro sec hsec q hq
  by_cases ht : q.text = q0
  · rw [ht, dictSet_lookup_self]
    rfl
  · rw [dictSet_lookup_ne answers q0 b q.text ht]
    exact h sec hsec q hq

/-- C4 (monotonicity): replacing the answer of one catalogue question by a
maturity level of higher ordinal never decreases the score of that
question's section, nor the overall score, and compute_scores still
succeeds on the modified store. -/
theorem claim4_monotonicity (answers : List (String × String)) (q0 a b : String)
    (sec0 : SectionDef) (hsec : sec0 ∈ SECTIONS)
    (hq0 : q0 ∈ sec0.questions.map Question.text)
    (hfull : FullAnswers SECTIONS answers)
    (hcur : answers.lookup q0 = some a)
    (ha : a ∈ LEVELS) (hb : b ∈ LEVELS)
    (hord : LEVELS.indexOf a ≤ LEVELS.indexOf b) :
    sectionScoreF answers sec0 ≤ sectionScoreF (dictSet answers q0 b) sec0 ∧
    overallF SECTIONS answers ≤ overallF SECTIONS (dictSet answers q0 b) ∧
    compute_scores (dictSet answers q0 b) =
      .ok (sectionScoresF SECTIONS (dictSet answers q0 b),
           overallF SECTIONS (dictSet answers q0 b)) := by
  have hpt : ∀ t : String,
      scoreGet (ansOf answers t) ≤ scoreGet (ansOf (dictSet answers q0 b) t) := by
    intro t
    by_cases ht : t = q0
    · rw [ht]
      rw [show ansOf answers q0 = a from by rw [ansOf, hcur]; rfl]
      rw [show ansOf (dictSet answers q0 b) q0 = b from by
        rw [ansOf, dictSet_lookup_self]; rfl]
      exact levels_score_mono a ha b hb hord
    · rw [show ansOf (dictSet answers q0 b) t = ansOf answers t from by
        rw [ansOf, ansOf, dictSet_lookup_ne answers q0 b t ht]]
  refine ⟨sectionScoreF_mono answers (dictSet answers q0 b) hpt sec0, ?_, ?_⟩
  · rw [overallF, overallF]
    apply pyRound_mono
    exact foldW_mono SECTIONS answers (dictSet answers q0 b)
      (fun sec _ => sectionScoreF_mono answers (dictSet answers q0 b) hpt sec) 0 0
      (le_refl 0) (le_refl 0)
  · rw [compute_scores]
    exact compute_scores_over_full SECTIONS (dictSet answers q0 b)
      (FullAnswers_dictSet answers q0 b hfull)

/-- Witness for C4: raising the first governance question of the
all-Defined store to Managed. -/
theorem claim4_monotonicity_witness :
    (secGov ∈ SECTIONS ∧
     "Is there clear data ownership defined for critical risk data elements?" ∈
       secGov.questions.map Question.text ∧
     FullAnswers SECTIONS ansDefault ∧
     ansDefault.lookup "Is there clear data ownership defined for critical risk data elements?"
       = some "Defined" ∧
     "Defined" ∈ LEVELS ∧ "Managed" ∈ LEVELS ∧
     LEVELS.indexOf "Defined" ≤ LEVELS.indexOf "Managed") ∧
    (sectionScoreF ansDefault secGov ≤
      sectionScoreF (dictSet ansDefault
        "Is there clear data ownership defined for critical risk data elements?" "Managed") secGov ∧
     overallF SECTIONS ansDefault ≤ overallF SECTIONS (dictSet ansDefault
        "Is there clear data ownership defined for critical risk data elements?" "Managed") ∧
     compute_scores (dictSet ansDefault
        "Is there clear data ownership defined for critical risk data elements?" "Managed") =
       .ok (sectionScoresF SECTIONS (dictSet ansDefault
              "Is there clear data ownership defined for critical risk data elements?" "Managed"),
            overallF SECTIONS (dictSet ansDefault
              "Is there clear data ownership defined for critical risk data elements?" "Managed"))) :=
  ⟨⟨show secGov ∈ SECTIONS from List.Mem.head _, by decide, by decide, by decide,
    by decide, by decide, by decide⟩,
   claim4_monotonicity ansDefault
     "Is there clear data ownership defined for critical risk data elements?"
     "Defined" "Managed" secGov (List.Mem.head _) (by decide) (by decide) (by decide)
     (by decide) (by decide) (by decide)⟩

/-! Claim C1: scoring against the exact specification model. -/

theorem ansDefault_spec_secGov : specSectionScore ansDefault secGov = 60 := by
  rw [← sectionScoreF_eq_spec ansDefault secGov (Or.inl (by decide))]
  exact ansDefault_score_secGov

theorem ansDefault_spec_secDQ : specSectionScore ansDefault secDQ = 60 := by
  rw [← sectionScoreF_eq_spec ansDefault secDQ (Or.inr (by decide))]
  exact ansDefault_score_secDQ

theorem ansDefault_spec_secLin : specSectionScore ansDefault secLin = 60 := by
  rw [← sectionScoreF_eq_spec ansDefault secLin (Or.inl (by decide))]
  exact ansDefault_score_secLin

theorem ansDefault_spec_secBCBS : specSectionScore ansDefault secBCBS = 60 := by
  rw [← sectionScoreF_eq_spec ansDefault secBCBS (Or.inr (by decide))]
  exact ansDefault_score_secBCBS

theorem ansDefault_spec_secOps : specSectionScore ansDefault secOps = 60 := by
  rw [← sectionScoreF_eq_spec ansDefault secOps (Or.inl (by decide))]
  exact ansDefault_score_secOps

theorem ansDefault_specExact : specExactOverall SECTIONS ansDefault = 60 := by
  rw [specExactOverall_SECTIONS, ansDefault_spec_secGov, ansDefault_spec_secDQ,
    ansDefault_spec_secLin, ansDefault_spec_secBCBS, ansDefault_spec_secOps]
  norm_num

theorem ansDefault_NotHalf : NotHalf (specExactOverall SECTIONS ansDefault) := by
  rw [ansDefault_specExact]
  intro m h
  have h2 : (120:ℚ) = 2 * m + 1 := by linarith
  have h3 : (120:ℤ) = 2 * m + 1 := by exact_mod_cast h2
  omega

/-- C1 (amended): on a fully populated store, compute_scores succeeds; each
section score equals the rounded exact arithmetic mean of the numeric
answer scores of that section (ties never arise there, so every
nearest-integer rule agrees), and whenever the exact weighted sum of the
section scores is not a half-integer, the overall score equals the rounded
exact weighted sum.  At exact half-integer ties the overall score is
instead decided by the accumulated binary64 rounding of the float sum, and
agrees with no fixed tie-break rule of the exact value (see the
counterexample). -/
theorem claim1_scoring (answers : List (String × String))
    (hfull : FullAnswers SECTIONS answers)
    (hnh : NotHalf (specExactOverall SECTIONS answers)) :
    compute_scores answers =
      .ok ([("Governance & Ownership", specSectionScore answers secGov),
            ("Data Quality & Controls", specSectionScore answers secDQ),
            ("Lineage & Traceability", specSectionScore answers secLin),
            ("BCBS-239 Specific Controls", specSectionScore answers secBCBS),
            ("Operational Resilience & Auditability", specSectionScore answers secOps)],
           specOverall SECTIONS answers) := by
  rw [compute_scores, compute_scores_over_full SECTIONS answers hfull,
    overallF_eq_spec answers hnh, sectionScoresF_SECTIONS]

/-- Witness for C1 at the all-Defined store. -/
theorem claim1_scoring_witness :
    (FullAnswers SECTIONS ansDefault ∧ NotHalf (specExactOverall SECTIONS ansDefault)) ∧
    compute_scores ansDefault =
      .ok ([("Governance & Ownership", specSectionScore ansDefault secGov),
            ("Data Quality & Controls", specSectionScore ansDefault secDQ),
            ("Lineage & Traceability", specSectionScore ansDefault secLin),
            ("BCBS-239 Specific Controls", specSectionScore ansDefault secBCBS),
            ("Operational Resilience & Auditability", specSectionScore ansDefault secOps)],
           specOverall SECTIONS ansDefault) :=
  ⟨⟨by decide, ansDefault_NotHalf⟩,
   claim1_scoring ansDefault (by decide) ansDefault_NotHalf⟩

theorem ansA_specExact : specExactOverall SECTIONS ansA = 59/2 := by
  rw [specExactOverall_SECTIONS,
    show specSectionScore ansA secGov = 20 from by
      rw [← sectionScoreF_eq_spec ansA secGov (Or.inl (by decide))]
      exact ansA_score_secGov,
    show specSectionScore ansA secDQ = 25 from by
      rw [← sectionScoreF_eq_spec ansA secDQ (Or.inr (by decide))]
      exact ansA_score_secDQ,
    show specSectionScore ansA secLin = 20 from by
      rw [← sectionScoreF_eq_spec ansA secLin (Or.inl (by decide))]
      exact ansA_score_secLin,
    show specSectionScore ansA secBCBS = 20 from by
      rw [← sectionScoreF_eq_spec ansA secBCBS (Or.inr (by decide))]
      exact ansA_score_secBCBS,
    show specSectionScore ansA secOps = 100 from by
      rw [← sectionScoreF_eq_spec ansA secOps (Or.inl (by decide))]
      exact ansA_score_secOps]
  norm_num

theorem ansB_specExact : specExactOverall SECTIONS ansB = 59/2 := by
  rw [specExactOverall_SECTIONS,
    show specSectionScore ansB secGov = 27 from by
      rw [← sectionScoreF_eq_spec ansB secGov (Or.inl (by decide))]
      exact ansB_score_secGov,
    show specSectionScore ansB secDQ = 40 from by
      rw [← sectionScoreF_eq_spec ansB secDQ (Or.inr (by decide))]
      exact ansB_score_secDQ,
    show specSectionScore ansB secLin = 27 from by
      rw [← sectionScoreF_eq_spec ansB secLin (Or.inl (by decide))]
      exact ansB_score_secLin,
    show specSectionScore ansB secBCBS = 20 from by
      rw [← sectionScoreF_eq_spec ansB secBCBS (Or.inr (by decide))]
      exact ansB_score_secBCBS,
    show specSectionScore ansB secOps = 27 from by
      rw [← sectionScoreF_eq_spec ansB secOps (Or.inl (by decide))]
      exact ansB_score_secOps]
  norm_num

/-- Counterexample to C1 as stated: two fully populated stores with valid
maturity labels whose exact weighted sums are both exactly 59/2, yet
compute_scores returns overall 30 for the one and 29 for the other - the
accumulated float rounding, not any fixed nearest-integer tie-break rule
applied to the exact sum, decides ties. -/
theorem claim1_scoring_counterexample :
    FullAnswers SECTIONS ansA ∧ FullAnswers SECTIONS ansB ∧
    specExactOverall SECTIONS ansA = 59/2 ∧
    specExactOverall SECTIONS ansB = 59/2 ∧
    compute_scores ansA = .ok ([("Governance & Ownership", 20),
      ("Data Quality & Controls", 25), ("Lineage & Traceability", 20),
      ("BCBS-239 Specific Controls", 20), ("Operational Resilience & Auditability", 100)],
      30) ∧
    compute_scores ansB = .ok ([("Governance & Ownership", 27),
      ("Data Quality & Controls", 40), ("Lineage & Traceability", 27),
      ("BCBS-239 Specific Controls", 20), ("Operational Resilience & Auditability", 27)],
      29) := by
  refine ⟨by decide, by decide, ansA_specExact, ansB_specExact, ?_, ?_⟩
  · rw [compute_scores, compute_scores_over_full SECTIONS ansA (by decide),
      ansA_scores, ansA_overall]
  · rw [compute_scores, compute_scores_over_full SECTIONS ansB (by decide),
      ansB_scores, ansB_overall]

/-! Claim C5: the structured export round-trips. -/

theorem unwrap_wrap (l : List (String × String)) :
    (l.map (fun p => (p.1, JVal.s p.2))).filterMap (fun p =>
      match p.2 with
      | JVal.s v => some (p.1, v)
      | _ => none) = l := by
  induction l with
  | nil => rfl
  | cons p rest ih => simp [ih]

theorem jAnswers_export (now : String) (answers : List (String × String))
    (ss : List (String × ℤ)) (ov : ℤ) :
    jAnswers (export_to_json now answers ss ov) = answers := by
  have hget : jGet (export_to_json now answers ss ov) "answers" =
      some (.obj (answers.map (fun p => (p.1, JVal.s p.2)))) := rfl
  unfold jAnswers
  rw [hget]
  exact unwrap_wrap answers

/-- C5: re-ingesting the answers mapping of the structured export and
recomputing scores reproduces the original overall and section scores
exactly. -/
theorem claim5_export_roundtrip (now : String) (answers : List (String × String))
    (ss : List (String × ℤ)) (ov : ℤ)
    (h : compute_scores answers = .ok (ss, ov)) :
    compute_scores (jAnswers (export_to_json now answers ss ov)) = .ok (ss, ov) := by
  rw [jAnswers_export]
  exact h

theorem computeDefault : compute_scores ansDefault =
    .ok ([("Governance & Ownership", 60), ("Data Quality & Controls", 60),
          ("Lineage & Traceability", 60), ("BCBS-239 Specific Controls", 60),
          ("Operational Resilience & Auditability", 60)], 60) := by
  rw [compute_scores, compute_scores_over_full SECTIONS ansDefault (by decide),
    ansDefault_scores, ansDefault_overall]

/-- Witness for C5 at the all-Defined store. -/
theorem claim5_export_roundtrip_witness :
    compute_scores ansDefault =
      .ok ([("Governance & Ownership", 60), ("Data Quality & Controls", 60),
            ("Lineage & Traceability", 60), ("BCBS-239 Specific Controls", 60),
            ("Operational Resilience & Auditability", 60)], 60) ∧
    compute_scores (jAnswers (export_to_json "2025-01-01T00:00:00" ansDefault
        [("Governance & Ownership", 60), ("Data Quality & Controls", 60),
         ("Lineage & Traceability", 60), ("BCBS-239 Specific Controls", 60),
         ("Operational Resilience & Auditability", 60)] 60)) =
      .ok ([("Governance & Ownership", 60), ("Data Quality & Controls", 60),
            ("Lineage & Traceability", 60), ("BCBS-239 Specific Controls", 60),
            ("Operational Resilience & Auditability", 60)], 60) :=
  ⟨computeDefault,
   claim5_export_roundtrip "2025-01-01T00:00:00" ansDefault _ 60 computeDefault⟩

/-! Claim C6: error behaviour of the scoring path. -/

/-- A catalogue section with zero questions, for probing the division
guard of compute_scores. -/
def emptySec : SectionDef :=
  { name := "Empty", weight := 1.0, icon := "", description := "",
    questions := [] }

theorem zero_question_silent :
    compute_scores_over [emptySec] [] = .ok ([("Empty", 0)], 0) := by
  have hfull : FullAnswers [emptySec] [] := by
    intro sec hsec q hq
    rw [List.mem_singleton] at hsec
    subst hsec
    simp [emptySec] at hq
  rw [compute_scores_over_full [emptySec] [] hfull]
  have hscore : sectionScoreF [] emptySec = 0 := by
    rw [sectionScoreF, sectionAvgF]
    rw [if_neg (by decide : ¬ (sectionQScores [] emptySec ≠ []))]
    rw [show (0:ℚ) = ((0:ℤ):ℚ) by norm_num]
    exact pyRound_intCast 0
  have hfold : overallFoldF [emptySec] (sectionScoresF [emptySec] []) = 0 := by
    simp only [sectionScoresF, List.map_cons, List.map_nil, hscore, overallFoldF,
      List.foldl_cons, List.foldl_nil, flMul, flAdd]
    rw [show ((0:ℤ):ℚ) * rnd (weightOf [emptySec] emptySec.name) = 0 by push_cast; ring]
    rw [rnd_zero, show (0:ℚ) + 0 = 0 by ring, rnd_zero]
  have hoverall : overallF [emptySec] [] = 0 := by
    rw [overallF, hfold, show (0:ℚ) = ((0:ℤ):ℚ) by norm_num]
    exact pyRound_intCast 0
  rw [hoverall, show sectionScoresF [emptySec] [] = [("Empty", 0)] from by
    simp only [sectionScoresF, List.map_cons, List.map_nil, hscore]
    rfl]

/-- Counterexample to C6 as stated: a catalogue with a zero-question
section does not raise a ConfigurationError; the guard in compute_scores
silently scores the section 0 and reports overall 0. -/
theorem claim6_errors_counterexample :
    compute_scores_over [emptySec] [] = .ok ([("Empty", 0)], 0) ∧
    ∀ e, compute_scores_over [emptySec] [] ≠ .error e := by
  refine ⟨zero_question_silent, ?_⟩
  intro e hc
  rw [zero_question_silent] at hc
  exact Except.noConfusion hc

/-- C6 (amended): a missing answer makes compute_scores fail with an error
value (the Python KeyError - an untyped builtin exception, not a dedicated
MissingAnswerError); it never silently produces a score in that case.  A
zero-question section, however, is silently scored 0 by the guard in the
average computation instead of failing with a ConfigurationError. -/
theorem claim6_error_behavior :
    (∀ (answers : List (String × String)) (r : List (String × ℤ) × ℤ),
      compute_scores answers = .ok r → FullAnswers SECTIONS answers) ∧
    (∀ answers : List (String × String), ¬ FullAnswers SECTIONS answers →
      ∃ e, compute_scores answers = .error e) ∧
    compute_scores_over [emptySec] [] = .ok ([("Empty", 0)], 0) := by
  refine ⟨?_, ?_, zero_question_silent⟩
  · intro answers r h
    exact compute_scores_over_ok_full SECTIONS answers r h
  · intro answers hnot
    cases hc : compute_scores answers with
    | error e => exact ⟨e, rfl⟩
    | ok r => exact absurd (compute_scores_over_ok_full SECTIONS answers r hc) hnot

/-- Witness for C6 at the empty store, which is missing every answer. -/
theorem claim6_error_behavior_witness :
    (¬ FullAnswers SECTIONS []) ∧ (∃ e, compute_scores [] = .error e) :=
  ⟨by decide, claim6_error_behavior.2.1 [] (by decide)⟩

/-! Claim C7: shape of the structured export. -/

/-- Counterexample to C7 as stated: the top-level keys of the structured
export are assessment_metadata, scores, answers, section_weights; none of
generatedAt, schemaVersion, overall, sections (top level) or weights
exists at top level. -/
theorem claim7_export_keys_counterexample :
    topKeys (export_to_json "T" [] [] 0) =
      ["assessment_metadata", "scores", "answers", "section_weights"] ∧
    "generatedAt" ∉ topKeys (export_to_json "T" [] [] 0) ∧
    "schemaVersion" ∉ topKeys (export_to_json "T" [] [] 0) ∧
    "overall" ∉ topKeys (export_to_json "T" [] [] 0) ∧
    "weights" ∉ topKeys (export_to_json "T" [] [] 0) :=
  ⟨rfl, by decide, by decide, by decide, by decide⟩

/-- C7 (amended): the structured export is a nested object with exactly
the top-level keys assessment_metadata, scores, answers and
section_weights; the metadata holds the UTC timestamp (the isoformat
string with the literal Z appended), the app version 2.0 and the
assessment type; scores holds the overall score and the per-section
scores; answers holds the full question-to-label mapping; section_weights
holds the per-section weights. -/
theorem claim7_export_shape (now : String) (answers : List (String × String))
    (ss : List (String × ℤ)) (ov : ℤ) :
    topKeys (export_to_json now answers ss ov) =
      ["assessment_metadata", "scores", "answers", "section_weights"] ∧
    jGet (export_to_json now answers ss ov) "assessment_metadata" =
      some (.obj [("generated_at", .s (now ++ "Z")), ("app_version", .s "2.0"),
                  ("assessment_type", .s "BCBS-239 Readiness")]) ∧
    jGet (export_to_json now answers ss ov) "scores" =
      some (.obj [("overall", .i ov),
                  ("sections", .obj (ss.map (fun p => (p.1, JVal.i p.2))))]) ∧
    jGet (export_to_json now answers ss ov) "answers" =
      some (.obj (answers.map (fun p => (p.1, JVal.s p.2)))) ∧
    jGet (export_to_json now answers ss ov) "section_weights" =
      some (.obj (SECTIONS.map (fun sec => (sec.name, JVal.q (rnd sec.weight))))) :=
  ⟨rfl, rfl, rfl, rfl, rfl⟩

/-! Claim C8: the answer store across reset and scoring. -/

theorem dictSet_lookup_isSome (l : List (String × String)) (k v t : String)
    (h : (l.lookup t).isSome) : ((dictSet l k v).lookup t).isSome := by
  by_cases ht : t = k
  · rw [ht, dictSet_lookup_self]
    rfl
  · rw [dictSet_lookup_ne l k v t ht]
    exact h

theorem foldl_dictSet_isSome (qs : List Question) (sel : String → String)
    (acc : List (String × String)) (t : String) (h : (acc.lookup t).isSome) :
    ((qs.foldl (fun a r => dictSet a r.text (sel r.text)) acc).lookup t).isSome := by
  induction qs generalizing acc with
  | nil => exact h
  | cons q rest ih =>
    rw [List.foldl_cons]
    exact ih _ (dictSet_lookup_isSome acc q.text (sel q.text) t h)

theorem foldl_dictSet_mem (qs : List Question) (sel : String → String)
    (acc : List (String × String)) (q : Question) (hq : q ∈ qs) :
    ((qs.foldl (fun a r => dictSet a r.text (sel r.text)) acc).lookup q.text).isSome := by
  induction qs generalizing acc with
  | nil => exact absurd hq (List.not_mem_nil q)
  | cons z rest ih =>
    rw [List.foldl_cons]
    rcases List.mem_cons.mp hq with rfl | hmem
    · exact foldl_dictSet_isSome rest sel _ q.text (by rw [dictSet_lookup_self]; rfl)
    · exact ih _ hmem

theorem fillAnswers_full (sel : String → String) (st : SessionState) :
    FullAnswers SECTIONS (((fillAnswers SECTIONS sel st).answers).getD []) := by
  intro sec hsec q hq
  simp only [fillAnswers, Option.getD_some]
  apply foldl_dictSet_mem
  rw [List.mem_join]
  exact ⟨sec.questions, List.mem_map_of_mem SectionDef.questions hsec, hq⟩

/-- Counterexample to C8 as stated: a reset from a started, fully-populated
session leaves the answer store empty, not re-defaulted; a catalogue
question has no entry afterwards, and the next init_session_state pass
keeps the store empty because the answers key is present. -/
theorem claim8_reset_counterexample :
    ((runScript SECTIONS true false (fun _ => "Defined")
        { started := some true, answers := some ansDefault,
          show_guidance := some [] }).1.answers = some []) ∧
    ((((runScript SECTIONS true false (fun _ => "Defined")
        { started := some true, answers := some ansDefault,
          show_guidance := some [] }).1.answers).getD []).lookup
      "Is there clear data ownership defined for critical risk data elements?" = none) ∧
    ((init_session_state SECTIONS
      (runScript SECTIONS true false (fun _ => "Defined")
        { started := some true, answers := some ansDefault,
          show_guidance := some [] }).1).answers = some []) :=
  ⟨rfl, rfl, rfl⟩

/-- C8 (amended): a reset clears the answer store to empty and the store
is not re-defaulted by init_session_state (which populates only an absent
key); but every script run that reaches scoring first rewrites an entry
for every catalogue question in the questionnaire pass, so compute_scores
always sees a fully populated store and succeeds; and a fresh session (no
answers key) is initialized with every catalogue question mapped to
Defined before anything else runs. -/
theorem claim8_store_invariant (resetClicked startClicked : Bool)
    (sel : String → String) (st0 : SessionState)
    (res : Except String (List (String × ℤ) × ℤ))
    (h : (runScript SECTIONS resetClicked startClicked sel st0).2 = some res) :
    FullAnswers SECTIONS
      (((runScript SECTIONS resetClicked startClicked sel st0).1.answers).getD []) ∧
    res = compute_scores_over SECTIONS
      (((runScript SECTIONS resetClicked startClicked sel st0).1.answers).getD []) ∧
    (∃ p, res = .ok p) ∧
    (init_session_state SECTIONS
      { started := none, answers := none, show_guidance := none }).answers =
      some (defaultAnswers SECTIONS) ∧
    (∀ sec ∈ SECTIONS, ∀ q ∈ sec.questions,
      (defaultAnswers SECTIONS).lookup q.text = some "Defined") := by
  unfold runScript at h ⊢
  by_cases hA : (init_session_state SECTIONS st0).started = some true ∧ resetClicked = true
  · rw [if_pos hA] at h
    simp at h
  · rw [if_neg hA] at h ⊢
    by_cases hB : (init_session_state SECTIONS st0).started ≠ some true
    · rw [if_pos hB] at h
      by_cases hC : startClicked = true
      · rw [if_pos hC] at h
        simp at h
      · rw [if_neg hC] at h
        simp at h
    · rw [if_neg hB] at h ⊢
      have hres : res = compute_scores_over SECTIONS
          (((fillAnswers SECTIONS sel (init_session_state SECTIONS st0)).answers).getD []) := by
        simpa using h.symm
      have hfull := fillAnswers_full sel (init_session_state SECTIONS st0)
      refine ⟨hfull, hres, ?_, rfl, by decide⟩
      refine ⟨(sectionScoresF SECTIONS
          (((fillAnswers SECTIONS sel (init_session_state SECTIONS st0)).answers).getD []),
        overallF SECTIONS
          (((fillAnswers SECTIONS sel (init_session_state SECTIONS st0)).answers).getD [])), ?_⟩
      rw [hres]
      exact compute_scores_over_full SECTIONS _ hfull

/-- Witness for C8: a started session with the reset not clicked reaches
scoring. -/
theorem claim8_store_invariant_witness :
    ((runScript SECTIONS false false (fun _ => "Defined")
        { started := some true, answers := some [], show_guidance := some [] }).2 =
      some (compute_scores_over SECTIONS
        (((runScript SECTIONS false false (fun _ => "Defined")
            { started := some true, answers := some [],
              show_guidance := some [] }).1.answers).getD []))) ∧
    (FullAnswers SECTIONS
      (((runScript SECTIONS false false (fun _ => "Defined")
          { started := some true, answers := some [],
            show_guidance := some [] }).1.answers).getD []) ∧
     compute_scores_over SECTIONS
        (((runScript SECTIONS false false (fun _ => "Defined")
            { started := some true, answers := some [],
              show_guidance := some [] }).1.answers).getD []) =
      compute_scores_over SECTIONS
        (((runScript SECTIONS false false (fun _ => "Defined")
            { started := some true, answers := some [],
              show_guidance := some [] }).1.answers).getD []) ∧
     (∃ p, compute_scores_over SECTIONS
        (((runScript SECTIONS false false (fun _ => "Defined")
            { started := some true, answers := some [],
              show_guidance := some [] }).1.answers).getD []) = .ok p) ∧
     (init_session_state SECTIONS
       { started := none, answers := none, show_guidance := none }).answers =
       some (defaultAnswers SECTIONS) ∧
     (∀ sec ∈ SECTIONS, ∀ q ∈ sec.questions,
       (defaultAnswers SECTIONS).lookup q.text = some "Defined")) :=
  ⟨rfl, claim8_store_invariant false false (fun _ => "Defined")
    { started := some true, answers := some [], show_guidance := some [] }
    (compute_scores_over SECTIONS
      (((runScript SECTIONS false false (fun _ => "Defined")
          { started := some true, answers := some [],
            show_guidance := some [] }).1.answers).getD [])) rfl⟩

/-! Claim C9: score bounds. -/

theorem SECTIONS_lengths :
    ∀ sec ∈ SECTIONS, sec.questions.length = 3 ∨ sec.questions.length = 4 := by decide

set_option maxHeartbeats 1000000 in
/-- C9: on a fully populated store whose values are maturity levels, every
section score and the overall score lie between 0 and 100, and
compute_scores succeeds. -/
theorem claim9_bounds (answers : List (String × String))
    (hfull : FullAnswers SECTIONS answers)
    (hvalid : ∀ sec ∈ SECTIONS, ∀ q ∈ sec.questions, ∀ v,
      answers.lookup q.text = some v → v ∈ LEVELS) :
    compute_scores answers =
      .ok (sectionScoresF SECTIONS answers, overallF SECTIONS answers) ∧
    (∀ p ∈ sectionScoresF SECTIONS answers, 0 ≤ p.2 ∧ p.2 ≤ 100) ∧
    0 ≤ overallF SECTIONS answers ∧ overallF SECTIONS answers ≤ 100 := by
  have hb1 := specSectionScore_bounds answers secGov (Or.inl (by decide))
  have hb2 := specSectionScore_bounds answers secDQ (Or.inr (by decide))
  have hb3 := specSectionScore_bounds answers secLin (Or.inl (by decide))
  have hb4 := specSectionScore_bounds answers secBCBS (Or.inr (by decide))
  have hb5 := specSectionScore_bounds answers secOps (Or.inl (by decide))
  have hclose := overallFold_close (specSectionScore answers secGov)
    (specSectionScore answers secDQ) (specSectionScore answers secLin)
    (specSectionScore answers secBCBS) (specSectionScore answers secOps)
    hb1 hb2 hb3 hb4 hb5
  have hcl := abs_le.mp hclose
  have c1l : (0:ℚ) ≤ ((specSectionScore answers secGov : ℤ) : ℚ) := by exact_mod_cast hb1.1
  have c1u : ((specSectionScore answers secGov : ℤ) : ℚ) ≤ 100 := by exact_mod_cast hb1.2
  have c2l : (0:ℚ) ≤ ((specSectionScore answers secDQ : ℤ) : ℚ) := by exact_mod_cast hb2.1
  have c2u : ((specSectionScore answers secDQ : ℤ) : ℚ) ≤ 100 := by exact_mod_cast hb2.2
  have c3l : (0:ℚ) ≤ ((specSectionScore answers secLin : ℤ) : ℚ) := by exact_mod_cast hb3.1
  have c3u : ((specSectionScore answers secLin : ℤ) : ℚ) ≤ 100 := by exact_mod_cast hb3.2
  have c4l : (0:ℚ) ≤ ((specSectionScore answers secBCBS : ℤ) : ℚ) := by exact_mod_cast hb4.1
  have c4u : ((specSectionScore answers secBCBS : ℤ) : ℚ) ≤ 100 := by exact_mod_cast hb4.2
  have c5l : (0:ℚ) ≤ ((specSectionScore answers secOps : ℤ) : ℚ) := by exact_mod_cast hb5.1
  have c5u : ((specSectionScore answers secOps : ℤ) : ℚ) ≤ 100 := by exact_mod_cast hb5.2
  refine ⟨compute_scores_over_full SECTIONS answers hfull, ?_, ?_, ?_⟩
  · intro p hp
    rw [sectionScoresF, List.mem_map] at hp
    obtain ⟨sec, hsec, rfl⟩ := hp
    rw [sectionScoreF_eq_spec answers sec (SECTIONS_lengths sec hsec)]
    exact specSectionScore_bounds answers sec (SECTIONS_lengths sec hsec)
  · rw [overallF, sectionScoresF_SECTIONS]
    have h1 := le_pyRound (overallFoldF SECTIONS
      [("Governance & Ownership", specSectionScore answers secGov),
       ("Data Quality & Controls", specSectionScore answers secDQ),
       ("Lineage & Traceability", specSectionScore answers secLin),
       ("BCBS-239 Specific Controls", specSectionScore answers secBCBS),
       ("Operational Resilience & Auditability", specSectionScore answers secOps)])
    have h2 : ((-1:ℤ):ℚ) < (pyRound (overallFoldF SECTIONS
      [("Governance & Ownership", specSectionScore answers secGov),
       ("Data Quality & Controls", specSectionScore answers secDQ),
       ("Lineage & Traceability", specSectionScore answers secLin),
       ("BCBS-239 Specific Controls", specSectionScore answers secBCBS),
       ("Operational Resilience & Auditability", specSectionScore answers secOps)]) : ℚ) := by
      push_cast
      linarith [hcl.1]
    have h3 : (-1:ℤ) < pyRound (overallFoldF SECTIONS
      [("Governance & Ownership", specSectionScore answers secGov),
       ("Data Quality & Controls", specSectionScore answers secDQ),
       ("Lineage & Traceability", specSectionScore answers secLin),
       ("BCBS-239 Specific Controls", specSectionScore answers secBCBS),
       ("Operational Resilience & Auditability", specSectionScore answers secOps)]) := by
      exact_mod_cast h2
    omega
  · rw [overallF, sectionScoresF_SECTIONS]
    have h1 := pyRound_le (overallFoldF SECTIONS
      [("Governance & Ownership", specSectionScore answers secGov),
       ("Data Quality & Controls", specSectionScore answers secDQ),
       ("Lineage & Traceability", specSectionScore answers secLin),
       ("BCBS-239 Specific Controls", specSectionScore answers secBCBS),
       ("Operational Resilience & Auditability", specSectionScore answers secOps)])
    have h2 : (pyRound (overallFoldF SECTIONS
      [("Governance & Ownership", specSectionScore answers secGov),
       ("Data Quality & Controls", specSectionScore answers secDQ),
       ("Lineage & Traceability", specSectionScore answers secLin),
       ("BCBS-239 Specific Controls", specSectionScore answers secBCBS),
       ("Operational Resilience & Auditability", specSectionScore answers secOps)]) : ℚ) <
      ((101:ℤ):ℚ) := by
      push_cast
      linarith [hcl.2]
    have h3 : pyRound (overallFoldF SECTIONS
      [("Governance & Ownership", specSectionScore answers secGov),
       ("Data Quality & Controls", specSectionScore answers secDQ),
       ("Lineage & Traceability", specSectionScore answers secLin),
       ("BCBS-239 Specific Controls", specSectionScore answers secBCBS),
       ("Operational Resilience & Auditability", specSectionScore answers secOps)]) < 101 := by
      exact_mod_cast h2
    omega

/-- Witness for C9 at the all-Defined store. -/
theorem claim9_bounds_witness :
    (FullAnswers SECTIONS ansDefault ∧
     (∀ sec ∈ SECTIONS, ∀ q ∈ sec.questions, ∀ v,
       ansDefault.lookup q.text = some v → v ∈ LEVELS)) ∧
    (compute_scores ansDefault =
       .ok (sectionScoresF SECTIONS ansDefault, overallF SECTIONS ansDefault) ∧
     (∀ p ∈ sectionScoresF SECTIONS ansDefault, 0 ≤ p.2 ∧ p.2 ≤ 100) ∧
     0 ≤ overallF SECTIONS ansDefault ∧ overallF SECTIONS ansDefault ≤ 100) :=
  ⟨⟨by decide, by decide⟩, claim9_bounds ansDefault (by decide) (by decide)⟩

/-! Robustness of the scoring and CSV-export paths on arbitrary answer
strings: SCORE_MAP.get(answer, 0) silently scores any unknown label as 0. -/

/-- A store answering every catalogue question with the out-of-scale label
N/A. -/
def ansNA : List (String × String) :=
  (SECTIONS.map (fun sec => sec.questions.map (fun q => (q.text, "N/A")))).join

theorem flMul_zero_left (b : ℚ) : flMul 0 b = 0 := by
  unfold flMul
  rw [zero_mul, rnd_zero]

theorem flAdd_zero_zero : flAdd 0 0 = 0 := by
  unfold flAdd
  rw [add_zero, rnd_zero]

theorem sectionScoreF_of_zeros (answers : List (String × String)) (sec : SectionDef)
    (n : ℕ) (hn : 0 < n) (hqs : sectionQScores answers sec = List.replicate n 0) :
    sectionScoreF answers sec = 0 := by
  unfold sectionScoreF sectionAvgF
  rw [hqs]
  have hne : List.replicate n (0:ℤ) ≠ [] := by
    intro hcon
    have := congrArg List.length hcon
    simp at this
    omega
  rw [if_pos hne]
  have hsum : (List.replicate n (0:ℤ)).sum = 0 := by simp
  have hlen : (List.replicate n (0:ℤ)).length = n := by simp
  rw [hsum, hlen]
  unfold flDiv
  rw [Int.cast_zero, zero_div, rnd_zero]
  simpa using pyRound_intCast 0

theorem ansNA_score_secGov : sectionScoreF ansNA secGov = 0 :=
  sectionScoreF_of_zeros ansNA secGov 3 (by norm_num) (by decide)

theorem ansNA_score_secDQ : sectionScoreF ansNA secDQ = 0 :=
  sectionScoreF_of_zeros ansNA secDQ 4 (by norm_num) (by decide)

theorem ansNA_score_secLin : sectionScoreF ansNA secLin = 0 :=
  sectionScoreF_of_zeros ansNA secLin 3 (by norm_num) (by decide)

theorem ansNA_score_secBCBS : sectionScoreF ansNA secBCBS = 0 :=
  sectionScoreF_of_zeros ansNA secBCBS 4 (by norm_num) (by decide)

theorem ansNA_score_secOps : sectionScoreF ansNA secOps = 0 :=
  sectionScoreF_of_zeros ansNA secOps 3 (by norm_num) (by decide)

theorem ansNA_scores : sectionScoresF SECTIONS ansNA =
    [("Governance & Ownership", 0), ("Data Quality & Controls", 0),
     ("Lineage & Traceability", 0), ("BCBS-239 Specific Controls", 0),
     ("Operational Resilience & Auditability", 0)] := by
  unfold sectionScoresF SECTIONS
  rw [List.map_cons, List.map_cons, List.map_cons, List.map_cons, List.map_cons,
    List.map_nil, ansNA_score_secGov, ansNA_score_secDQ, ansNA_score_secLin,
    ansNA_score_secBCBS, ansNA_score_secOps]
  rfl

theorem ansNA_fold : overallFoldF SECTIONS
    [("Governance & Ownership", (0:ℤ)), ("Data Quality & Controls", 0),
     ("Lineage & Traceability", 0), ("BCBS-239 Specific Controls", 0),
     ("Operational Resilience & Auditability", 0)] = 0 := by
  unfold overallFoldF
  simp [flMul_zero_left, flAdd_zero_zero]

theorem ansNA_overall : overallF SECTIONS ansNA = 0 := by
  unfold overallF
  rw [ansNA_scores, ansNA_fold]
  simpa using pyRound_intCast 0

theorem ansNA_compute : compute_scores ansNA =
    .ok ([("Governance & Ownership", 0), ("Data Quality & Controls", 0),
          ("Lineage & Traceability", 0), ("BCBS-239 Specific Controls", 0),
          ("Operational Resilience & Auditability", 0)], 0) := by
  unfold compute_scores
  rw [compute_scores_over_full SECTIONS ansNA (by decide), ansNA_scores, ansNA_overall]

theorem lookup_sectionScoresF (sections : List SectionDef)
    (answers : List (String × String))
    (hnd : (sections.map SectionDef.name).Nodup) (sec : SectionDef)
    (hsec : sec ∈ sections) :
    (sectionScoresF sections answers).lookup sec.name =
      some (sectionScoreF answers sec) := by
  induction sections with
  | nil => exact absurd hsec (List.not_mem_nil sec)
  | cons s rest ih =>
    rw [List.map_cons, List.nodup_cons] at hnd
    rcases List.mem_cons.mp hsec with rfl | hmem
    · unfold sectionScoresF
      rw [List.map_cons]
      simp [List.lookup]
    · have hne : (sec.name == s.name) = false := by
        rw [beq_eq_false_iff_ne]
        intro hEq
        exact hnd.1 (hEq ▸ List.mem_map_of_mem SectionDef.name hmem)
      unfold sectionScoresF
      rw [List.map_cons]
      simp only [List.lookup, hne]
      simpa [sectionScoresF] using ih hnd.2 hmem

theorem csvRow_ok (answers : List (String × String))
    (section_scores : List (String × ℤ)) (sec : SectionDef) (q : Question)
    (h1 : (answers.lookup q.text).isSome)
    (h2 : (section_scores.lookup sec.name).isSome) :
    ∃ r, csvRow answers section_scores sec q = .ok r := by
  obtain ⟨a, ha⟩ := Option.isSome_iff_exists.mp h1
  obtain ⟨ss, hs⟩ := Option.isSome_iff_exists.mp h2
  refine ⟨{ Section := sec.name, Question := q.text, Answer := a,
            Score := scoreGet a, Section_Score := ss,
            Section_Weight := rnd sec.weight }, ?_⟩
  unfold csvRow
  rw [ha, hs]

theorem export_to_csv_ok (answers : List (String × String)) (ov : ℤ)
    (h : FullAnswers SECTIONS answers) :
    ∃ r, export_to_csv answers (sectionScoresF SECTIONS answers) ov = .ok r := by
  unfold export_to_csv export_to_csv_over
  obtain ⟨blocks, hb⟩ := mapM_ok_of_forall
    (fun sec => sec.questions.mapM (csvRow answers (sectionScoresF SECTIONS answers) sec))
    SECTIONS
    (fun sec hsec => mapM_ok_of_forall _ sec.questions
      (fun q hq => csvRow_ok answers _ sec q (h sec hsec q hq)
        (by rw [lookup_sectionScoresF SECTIONS answers (by decide) sec hsec]; rfl)))
  exact ⟨(blocks.join, ov), by rw [hb]; rfl⟩

set_option maxHeartbeats 1000000 in
/-- C10: on any store with an entry for every catalogue question, whatever
the answer strings, compute_scores succeeds and export_to_csv on its section
scores succeeds; the out-of-scale label N/A scores 0, so every section of
the all-N/A store scores 0, which is below the minimum 20 reachable with
valid labels. -/
theorem claim10_robustness (answers : List (String × String)) (ov : ℤ)
    (h : FullAnswers SECTIONS answers) :
    (compute_scores answers =
        .ok (sectionScoresF SECTIONS answers, overallF SECTIONS answers) ∧
      ∃ r, export_to_csv answers (sectionScoresF SECTIONS answers) ov = .ok r) ∧
    scoreGet "N/A" = 0 ∧
    compute_scores ansNA =
      .ok ([("Governance & Ownership", 0), ("Data Quality & Controls", 0),
            ("Lineage & Traceability", 0), ("BCBS-239 Specific Controls", 0),
            ("Operational Resilience & Auditability", 0)], 0) ∧
    sectionScoreF ansNA secGov < 20 := by
  refine ⟨⟨compute_scores_over_full SECTIONS answers h, export_to_csv_ok answers ov h⟩,
    by decide, ansNA_compute, ?_⟩
  rw [ansNA_score_secGov]
  norm_num

set_option maxHeartbeats 1000000 in
/-- Witness for C10 at the all-N/A store. -/
theorem claim10_robustness_witness :
    FullAnswers SECTIONS ansNA ∧
    ((compute_scores ansNA =
        .ok (sectionScoresF SECTIONS ansNA, overallF SECTIONS ansNA) ∧
      ∃ r, export_to_csv ansNA (sectionScoresF SECTIONS ansNA) 0 = .ok r) ∧
     scoreGet "N/A" = 0 ∧
     compute_scores ansNA =
       .ok ([("Governance & Ownership", 0), ("Data Quality & Controls", 0),
             ("Lineage & Traceability", 0), ("BCBS-239 Specific Controls", 0),
             ("Operational Resilience & Auditability", 0)], 0) ∧
     sectionScoreF ansNA secGov < 20) :=
  ⟨by decide, claim10_robustness ansNA 0 (by decide)⟩
